import Mathlib

/-! GenerateThumbnail: a shallow embedding of `src/GenerateThumbnail/index.js`

The Lambda handler is a single linear pipeline.  It is embedded as a pure function
from the process configuration, the two external collaborators (the S3 client and the
`sharp` image library) and the request event to the response it returns, paired with
the list of collaborator calls it made, in order.

Modelling conventions.

* A JavaScript value that may be `undefined` (an absent property, an unset environment
  variable) is an `Option`; the strings of the event are Lean strings.
* `a || b` on such values is `jsOr`: the left operand when it is truthy (a non-empty
  string), the right operand otherwise.
* `parseInt(s, 10)` returns a JavaScript number.  It is modelled by the exact integer
  (`none` for `NaN`).  The handler only compares the number with `0` and `4096` and
  passes it on when it lies in `[1, 4096]`; rounding an integer to a double is monotone
  and exact on that range, so every branch and every value passed on agrees with the
  exact integer.
* A thrown error is the `.error` case of `Except`.  `JsError`, `World` and `handler`
  cover collaborators that throw error objects, as the AWS SDK and `sharp` do: values
  that are not `null` or `undefined` and whose `message` is a string or absent, seen
  through the three fields the `catch` block inspects.  `Thrown`, `RawWorld` and
  `rawHandler` cover collaborators that may throw any value; there the `catch` block can
  itself throw, and the promise the handler returns is then rejected.
* The body stream of the S3 response is a finite sequence of chunks that ends normally
  or by throwing.
-/

namespace GenerateThumbnail

/-! ## Data model -/

/-- A buffer of bytes; each element stands for one byte. -/
abbrev Bytes := List Nat

/-- Process configuration read from the environment at start-up (lines 5-6).
A variable that was never set reads as `undefined`, here `none`. -/
structure Config where
  BUCKET_NAME : Option String
  SECRET_KEY : Option String
  deriving DecidableEq, Repr

/-- The request event: the three properties the handler reads. -/
structure Event where
  headers : Option (List (String × String))
  path : Option String
  queryStringParameters : Option (List (String × String))
  deriving DecidableEq, Repr

/-- The response object the handler returns.  Error responses carry only `statusCode`
and `body`; the success response also carries `headers` and `isBase64Encoded`. -/
structure Response where
  statusCode : Nat
  headers : Option (List (String × String))
  body : String
  isBase64Encoded : Option Bool
  deriving DecidableEq, Repr

/-- A thrown error object, reduced to what the `catch` block reads: `error.name`,
`error.$metadata?.httpStatusCode` and `error.message`.  The thrown value is not `null`
or `undefined`, and its `message` is a string or is absent (falsy). -/
structure JsError where
  name : Option String
  httpStatusCode : Option Int
  message : Option String
  deriving DecidableEq, Repr

/-- The input of `new GetObjectCommand({ Bucket, Key })` (lines 53-56). -/
structure GetObjectCommand where
  Bucket : Option String
  Key : String
  deriving DecidableEq, Repr

/-- The async-iterable body of the S3 response: chunks, then a normal end or a throw. -/
inductive BodyStream where
  | done : BodyStream
  | fail (error : JsError) : BodyStream
  | chunk (bytes : Bytes) (rest : BodyStream) : BodyStream
  deriving DecidableEq, Repr

/-- The properties of the S3 response the handler reads. -/
structure GetObjectOutput where
  ContentLength : Option Nat
  Body : BodyStream
  deriving DecidableEq, Repr

/-- The properties of `await image.metadata()` the handler reads. -/
structure Metadata where
  format : Option String
  hasAlpha : Bool
  deriving DecidableEq, Repr

/-- One chained call on the `sharp` pipeline, with the options the handler passes. -/
inductive SharpOp where
  | resize (width height : Int) (fit : String) (withoutEnlargement : Bool) : SharpOp
  | png (quality compressionLevel : Nat) : SharpOp
  | webp (quality : Nat) : SharpOp
  | flatten (background : String) : SharpOp
  | jpeg (quality : Nat) (progressive : Bool) : SharpOp
  deriving DecidableEq, Repr

/-- The external collaborators: `s3Client.send`, `sharp(buf).metadata()` and
`sharp(buf)...toBuffer()`.  Each either returns or throws. -/
structure World where
  send : GetObjectCommand → Except JsError GetObjectOutput
  metadata : Bytes → Except JsError Metadata
  toBuffer : Bytes → List SharpOp → Except JsError Bytes

/-- A call the handler makes on the outside world, recorded in program order. -/
inductive Effect where
  | send (command : GetObjectCommand) : Effect
  | readBody : Effect
  | decode (imageBuffer : Bytes) : Effect
  | encode (imageBuffer : Bytes) (ops : List SharpOp) : Effect
  | consoleError (error : JsError) : Effect
  deriving DecidableEq, Repr

/-! ## JavaScript primitives used by the handler -/

/-- Truthiness of a string-or-undefined value. -/
def truthy : Option String → Bool
  | some s => s != ""
  | none => false

/-- The operator `a || b` on string-or-undefined values. -/
def jsOr (a b : Option String) : Option String :=
  if truthy a then a else b

/-- The operator `a || 'literal'`, whose result is always a string. -/
def jsOrStr (a : Option String) (b : String) : String :=
  match a with
  | some s => if s != "" then s else b
  | none => b

/-- Property lookup `obj[key]` on a string-keyed object given as an association list. -/
def getProp (obj : List (String × String)) (key : String) : Option String :=
  obj.lookup key

/-- The characters `parseInt` skips at the start of its input
(ECMAScript WhiteSpace and LineTerminator). -/
def isStrWhiteSpaceChar (c : Char) : Bool :=
  let n := c.toNat
  n == 0x09 || n == 0x0A || n == 0x0B || n == 0x0C || n == 0x0D || n == 0x20 ||
  n == 0xA0 || n == 0x1680 || (0x2000 ≤ n && n ≤ 0x200A) || n == 0x2028 ||
  n == 0x2029 || n == 0x202F || n == 0x205F || n == 0x3000 || n == 0xFEFF

/-- Value of a run of decimal digits, most significant first. -/
def digitsValue (ds : List Char) : Nat :=
  ds.foldl (fun acc d => acc * 10 + (d.toNat - 48)) 0

/-- The digits-and-sign part of `parseInt(_, 10)`, after the leading white space. -/
def parseSigned : List Char → Option Int
  | '-' :: rest =>
    let ds := rest.takeWhile Char.isDigit
    if ds.isEmpty then none else some (-(digitsValue ds : Int))
  | '+' :: rest =>
    let ds := rest.takeWhile Char.isDigit
    if ds.isEmpty then none else some (digitsValue ds : Int)
  | cs =>
    let ds := cs.takeWhile Char.isDigit
    if ds.isEmpty then none else some (digitsValue ds : Int)

/-- The call `parseInt(s, 10)`: skip leading white space, read an optional sign and the
longest run of decimal digits, ignore whatever follows; `none` is `NaN`. -/
def parseInt (s : String) : Option Int :=
  parseSigned (s.data.dropWhile isStrWhiteSpaceChar)

/-- The call `s.replace(/^\//, '')`: remove one leading slash when there is one. -/
def stripLeadingSlash (s : String) : String :=
  match s.data with
  | '/' :: rest => ⟨rest⟩
  | _ => s

/-- The call `s.toLowerCase()`, on the ASCII range.  JavaScript also lower-cases letters
outside ASCII; none of those maps to a letter of `jpeg`, `jpg`, `png` or `webp`, so
the two agree on the only use the handler makes of the result, the comparison with
those four words. -/
def toLowerCase (s : String) : String :=
  ⟨s.data.map Char.toLower⟩

/-- Whether the character list `sub` occurs in `s` as a contiguous run. -/
def includesChars (sub : List Char) : List Char → Bool
  | [] => sub.isEmpty
  | c :: cs => sub.isPrefixOf (c :: cs) || includesChars sub cs

/-- The call `s.includes(sub)`. -/
def includes (s sub : String) : Bool :=
  includesChars sub.data s.data

/-- Escape of one character inside a JSON string literal, as `JSON.stringify` does. -/
def jsonEscapeChar (c : Char) : List Char :=
  if c = '"' then ['\\', '"']
  else if c = '\\' then ['\\', '\\']
  else if c = '\n' then ['\\', 'n']
  else if c = '\r' then ['\\', 'r']
  else if c = '\t' then ['\\', 't']
  else if c.toNat = 8 then ['\\', 'b']
  else if c.toNat = 12 then ['\\', 'f']
  else if c.toNat < 32 then
    ['\\', 'u', '0', '0', Nat.digitChar (c.toNat / 16), Nat.digitChar (c.toNat % 16)]
  else [c]

/-- The call `JSON.stringify({ error: message })`. -/
def jsonStringifyError (message : String) : String :=
  ⟨"\x7b\"error\":\"".data ++ (message.data.map jsonEscapeChar).flatten ++ "\"\x7d".data⟩

/-- The sixty-four characters of the base64 alphabet. -/
def base64Alphabet : List Char :=
  "ABCDEFGHIJKLMNOPQRSTUVWXYZabcdefghijklmnopqrstuvwxyz0123456789+/".data

/-- The base64 character of a six-bit value. -/
def base64Char (n : Nat) : Char :=
  base64Alphabet.getD n '='

/-- Base64 of a byte sequence, three bytes at a time, padded with `=`. -/
def base64Chars : List Nat → List Char
  | [] => []
  | [a] => [base64Char (a / 4), base64Char (a % 4 * 16), '=', '=']
  | [a, b] =>
    [base64Char (a / 4), base64Char (a % 4 * 16 + b / 16), base64Char (b % 16 * 4), '=']
  | a :: b :: c :: rest =>
    base64Char (a / 4) :: base64Char (a % 4 * 16 + b / 16) ::
      base64Char (b % 16 * 4 + c / 64) :: base64Char (c % 64) :: base64Chars rest

/-- The call `buffer.toString('base64')`. -/
def toBase64 (buffer : Bytes) : String :=
  ⟨base64Chars (buffer.map (· % 256))⟩

/-! ## The handler -/

/-- Line 7. -/
def MAX_DIMENSION : Int := 4096

/-- Line 8: 20MB. -/
def MAX_FILE_SIZE : Nat := 20 * 1024 * 1024

/-- An error response `{ statusCode, body: JSON.stringify({ error: message }) }`. -/
def errorResponse (statusCode : Nat) (message : String) : Response :=
  { statusCode := statusCode, headers := none, body := jsonStringifyError message,
    isBase64Encoded := none }

/-- Lines 13-14: the header value compared with the secret. -/
def cfSecret (event : Event) : Option String :=
  let headers := event.headers.getD []
  jsOr (getProp headers "x-origin-verify") (getProp headers "X-Origin-Verify")

/-- Line 24: the object key. -/
def objectPath (event : Event) : String :=
  stripLeadingSlash (jsOrStr event.path "")

/-- Line 25: the query parameters, an empty object when absent. -/
def queryParams (event : Event) : List (String × String) :=
  event.queryStringParameters.getD []

/-- Line 35. -/
def parsedWidth (event : Event) : Option Int :=
  parseInt (jsOrStr (getProp (queryParams event) "width") "200")

/-- Line 36. -/
def parsedHeight (event : Event) : Option Int :=
  parseInt (jsOrStr (getProp (queryParams event) "height") "200")

/-- Lines 151-157, the loop: push every chunk, rethrow what the stream throws. -/
def collectChunks : BodyStream → List Bytes → Except JsError (List Bytes)
  | .done, chunks => .ok chunks
  | .fail error, _ => .error error
  | .chunk bytes rest, chunks => collectChunks rest (chunks ++ [bytes])

/-- Lines 151-157: `streamToBuffer`. -/
def streamToBuffer (stream : BodyStream) : Except JsError Bytes :=
  match collectChunks stream [] with
  | .ok chunks => .ok chunks.flatten
  | .error error => .error error

/-- Line 80. -/
def supportedFormats : List String := ["jpeg", "jpg", "png", "webp"]

/-- Lines 76-84: the output format, from the `format` parameter and the detected
format of the source. -/
def resolveOutputFormat (format : Option String) (detected : Option String) : String :=
  let requestedFormat := format.map toLowerCase
  let outputFormat := jsOr requestedFormat detected
  let outputFormat :=
    match outputFormat with
    | some f => if supportedFormats.contains f then f else "jpeg"
    | none => "jpeg"
  if outputFormat = "jpg" then "jpeg" else outputFormat

/-- Lines 87-104: the calls chained on `sharp(imageBuffer)`. -/
def sharpOps (width height : Int) (outputFormat : String) (hasAlpha : Bool) :
    List SharpOp :=
  let resize := [SharpOp.resize width height "inside" false]
  if outputFormat = "png" then resize ++ [SharpOp.png 85 8]
  else if outputFormat = "webp" then resize ++ [SharpOp.webp 85]
  else if hasAlpha then resize ++ [SharpOp.flatten "#ffffff", SharpOp.jpeg 85 true]
  else resize ++ [SharpOp.jpeg 85 true]

/-- Lines 108-116: the success response. -/
def successResponse (outputFormat : String) (outputBuffer : Bytes) : Response :=
  { statusCode := 200,
    headers := some [("Content-Type", "image/" ++ outputFormat),
                     ("Cache-Control", "public, max-age=86400")],
    body := toBase64 outputBuffer,
    isBase64Encoded := some true }

/-- Lines 52-116: fetch, size guard, buffering, decoding, format resolution, transform
and response assembly, for validated `path`, `width` and `height`. -/
def fetchAndTransform (cfg : Config) (world : World) (event : Event)
    (path : String) (width height : Int) : Except JsError Response × List Effect :=
  let getObjectCommand : GetObjectCommand := { Bucket := cfg.BUCKET_NAME, Key := path }
  match world.send getObjectCommand with
  | .error error => (.error error, [.send getObjectCommand])
  | .ok s3Response =>
    let contentLength := s3Response.ContentLength.getD 0
    if contentLength > MAX_FILE_SIZE then
      (.ok (errorResponse 413 "Image file too large"), [.send getObjectCommand])
    else
      match streamToBuffer s3Response.Body with
      | .error error => (.error error, [.send getObjectCommand, .readBody])
      | .ok imageBuffer =>
        match world.metadata imageBuffer with
        | .error error =>
          (.error error, [.send getObjectCommand, .readBody, .decode imageBuffer])
        | .ok metadata =>
          let outputFormat :=
            resolveOutputFormat (getProp (queryParams event) "format") metadata.format
          let ops := sharpOps width height outputFormat metadata.hasAlpha
          match world.toBuffer imageBuffer ops with
          | .error error =>
            (.error error, [.send getObjectCommand, .readBody, .decode imageBuffer,
              .encode imageBuffer ops])
          | .ok outputBuffer =>
            (.ok (successResponse outputFormat outputBuffer),
              [.send getObjectCommand, .readBody, .decode imageBuffer,
                .encode imageBuffer ops])

/-- Lines 11-116: the `try` block.  The result is what the block returns or throws,
with the collaborator calls made on the way. -/
def handlerTry (cfg : Config) (world : World) (event : Event) :
    Except JsError Response × List Effect :=
  if cfSecret event ≠ cfg.SECRET_KEY then
    (.ok (errorResponse 403 "Forbidden"), [])
  else
    let path := objectPath event
    if path = "" then
      (.ok (errorResponse 400 "Missing image path"), [])
    else
      match parsedWidth event, parsedHeight event with
      | some width, some height =>
        if width ≤ 0 ∨ height ≤ 0 ∨ width > MAX_DIMENSION ∨ height > MAX_DIMENSION then
          (.ok (errorResponse 400
            ("Width and height must be between 1 and " ++ toString MAX_DIMENSION)), [])
        else
          fetchAndTransform cfg world event path width height
      | _, _ =>
        (.ok (errorResponse 400 "Invalid width or height parameter"), [])

/-- Lines 118-147: the `catch` block, after the error was logged. -/
def handlerCatch (error : JsError) : Response :=
  if error.name = some "NoSuchKey" ∨ error.httpStatusCode = some 404 then
    errorResponse 404 "Image not found"
  else if error.name = some "AccessDenied" ∨ error.httpStatusCode = some 403 then
    errorResponse 403 "Access denied"
  else if (match error.message with
      | some message => message != "" && includes message "Input buffer"
      | none => false) then
    errorResponse 400 "Invalid image format"
  else
    errorResponse 500 "Internal server error"

/-- The boundary of `try`/`catch` for thrown error objects: a returned response is the
handler's response; a thrown error object is logged (line 119) and classified by the
`catch` block.  For values of any kind the boundary is `rawHandler`. -/
def settle : Except JsError Response × List Effect → Response × List Effect
  | (.ok response, effects) => (response, effects)
  | (.error error, effects) => (handlerCatch error, effects ++ [.consoleError error])

/-- Lines 10-148: `exports.handler`, for collaborators that return or throw error
objects.  The response, and the calls made in order. -/
def handler (cfg : Config) (world : World) (event : Event) : Response × List Effect :=
  settle (handlerTry cfg world event)

/-! ## The handler on collaborators that may throw any value -/

/-- A value thrown by a collaborator, as the `catch` block of lines 118-147 meets it.
`nullish` is `null` or `undefined`: reading `error.name` (line 122) throws a TypeError.
`error` is an error object, or any other value whose `message` is a string or falsy.
`opaqueMessage` is a value that is not `null` or `undefined` and whose `message` is
truthy, is not a string and has no `includes` method: the call on line 136 throws a
TypeError. -/
inductive Thrown where
  | nullish : Thrown
  | error (error : JsError) : Thrown
  | opaqueMessage (name : Option String) (httpStatusCode : Option Int) : Thrown
  deriving DecidableEq, Repr

/-- The body of the S3 response when the stream may throw any value. -/
inductive RawStream where
  | done : RawStream
  | fail (thrown : Thrown) : RawStream
  | chunk (bytes : Bytes) (rest : RawStream) : RawStream
  deriving DecidableEq, Repr

/-- The properties of the S3 response the handler reads, with such a body. -/
structure RawOutput where
  ContentLength : Option Nat
  Body : RawStream
  deriving DecidableEq, Repr

/-- The external collaborators when each may throw any value. -/
structure RawWorld where
  send : GetObjectCommand → Except Thrown RawOutput
  metadata : Bytes → Except Thrown Metadata
  toBuffer : Bytes → List SharpOp → Except Thrown Bytes

/-- What becomes of the promise the handler returns: it is fulfilled with a response,
or it is rejected because an error escaped the handler. -/
inductive Outcome where
  | returned (response : Response) : Outcome
  | rejected : Outcome
  deriving DecidableEq, Repr

/-- Lines 151-157, the loop, on a stream that may throw any value. -/
def rawCollectChunks : RawStream → List Bytes → Except Thrown (List Bytes)
  | .done, chunks => .ok chunks
  | .fail thrown, _ => .error thrown
  | .chunk bytes rest, chunks => rawCollectChunks rest (chunks ++ [bytes])

/-- Lines 151-157: `streamToBuffer`, on a stream that may throw any value. -/
def rawStreamToBuffer (stream : RawStream) : Except Thrown Bytes :=
  match rawCollectChunks stream [] with
  | .ok chunks => .ok chunks.flatten
  | .error thrown => .error thrown

/-- Lines 52-116 on collaborators that may throw any value: what the block returns or
throws. -/
def rawFetchAndTransform (cfg : Config) (world : RawWorld) (event : Event)
    (path : String) (width height : Int) : Except Thrown Response :=
  match world.send { Bucket := cfg.BUCKET_NAME, Key := path } with
  | .error thrown => .error thrown
  | .ok s3Response =>
    if s3Response.ContentLength.getD 0 > MAX_FILE_SIZE then
      .ok (errorResponse 413 "Image file too large")
    else
      match rawStreamToBuffer s3Response.Body with
      | .error thrown => .error thrown
      | .ok imageBuffer =>
        match world.metadata imageBuffer with
        | .error thrown => .error thrown
        | .ok metadata =>
          match world.toBuffer imageBuffer
              (sharpOps width height
                (resolveOutputFormat (getProp (queryParams event) "format") metadata.format)
                metadata.hasAlpha) with
          | .error thrown => .error thrown
          | .ok outputBuffer =>
            .ok (successResponse
              (resolveOutputFormat (getProp (queryParams event) "format") metadata.format)
              outputBuffer)

/-- Lines 11-116: the `try` block on collaborators that may throw any value. -/
def rawHandlerTry (cfg : Config) (world : RawWorld) (event : Event) :
    Except Thrown Response :=
  if cfSecret event ≠ cfg.SECRET_KEY then
    .ok (errorResponse 403 "Forbidden")
  else if objectPath event = "" then
    .ok (errorResponse 400 "Missing image path")
  else
    match parsedWidth event, parsedHeight event with
    | some width, some height =>
      if width ≤ 0 ∨ height ≤ 0 ∨ width > MAX_DIMENSION ∨ height > MAX_DIMENSION then
        .ok (errorResponse 400
          ("Width and height must be between 1 and " ++ toString MAX_DIMENSION))
      else
        rawFetchAndTransform cfg world event (objectPath event) width height
    | _, _ =>
      .ok (errorResponse 400 "Invalid width or height parameter")

/-- Lines 118-147: the `catch` block on a thrown value of any kind.  On `null` or
`undefined` the read of `error.name` throws; on a value with an opaque message the first
two tests run as usual and the call of `includes` throws.  What the block throws
escapes the handler. -/
def rawHandlerCatch : Thrown → Outcome
  | .nullish => .rejected
  | .error error => .returned (handlerCatch error)
  | .opaqueMessage name httpStatusCode =>
    if name = some "NoSuchKey" ∨ httpStatusCode = some 404 then
      .returned (errorResponse 404 "Image not found")
    else if name = some "AccessDenied" ∨ httpStatusCode = some 403 then
      .returned (errorResponse 403 "Access denied")
    else
      .rejected

/-- Lines 10-148: `exports.handler` on collaborators that may throw any value. -/
def rawHandler (cfg : Config) (world : RawWorld) (event : Event) : Outcome :=
  match rawHandlerTry cfg world event with
  | .ok response => .returned response
  | .error thrown => rawHandlerCatch thrown

/-- A body stream that throws error objects, among the streams that may throw any
value. -/
def liftStream : BodyStream → RawStream
  | .done => .done
  | .fail error => .fail (.error error)
  | .chunk bytes rest => .chunk bytes (liftStream rest)

/-- Lifts a collaborator result that throws error objects. -/
def liftResult {α β : Type} (f : α → β) : Except JsError α → Except Thrown β
  | .ok value => .ok (f value)
  | .error error => .error (.error error)

/-- Collaborators that throw error objects, among those that may throw any value. -/
def liftWorld (world : World) : RawWorld :=
  { send := fun command =>
      liftResult
        (fun output => { ContentLength := output.ContentLength,
                         Body := liftStream output.Body })
        (world.send command),
    metadata := fun imageBuffer => liftResult id (world.metadata imageBuffer),
    toBuffer := fun imageBuffer ops => liftResult id (world.toBuffer imageBuffer ops) }

/-- The number of bytes a body stream delivers before it ends or throws. -/
def streamedBytes : BodyStream → Nat
  | .done => 0
  | .fail _ => 0
  | .chunk bytes rest => bytes.length + streamedBytes rest

/-! ## Concrete collaborators and inputs used to exercise the handler -/

/-- A bucket without objects and a codec that rejects every buffer. -/
def emptyBucket : World :=
  { send := fun _ => .error
      { name := some "NoSuchKey", httpStatusCode := some 404,
        message := some "The specified key does not exist." },
    metadata := fun _ => .error
      { name := some "Error", httpStatusCode := none,
        message := some "Input buffer contains unsupported image format" },
    toBuffer := fun _ _ => .error
      { name := some "Error", httpStatusCode := none,
        message := some "Input buffer contains unsupported image format" } }

/-- A bucket that answers every fetch with `output`, and a codec that reports `metadata`
for every buffer and encodes every pipeline to `encoded`. -/
def servingWorld (output : GetObjectOutput) (metadata : Metadata) (encoded : Bytes) :
    World :=
  { send := fun _ => .ok output,
    metadata := fun _ => .ok metadata,
    toBuffer := fun _ _ => .ok encoded }

/-- A bucket whose every fetch throws `error`, with the codec of `emptyBucket`. -/
def failingBucket (error : JsError) : World :=
  { send := fun _ => .error error,
    metadata := emptyBucket.metadata,
    toBuffer := emptyBucket.toBuffer }

/-- A bucket whose every fetch throws the value `thrown`, whatever it is; the codec
rejects every buffer with an error object. -/
def throwingBucket (thrown : Thrown) : RawWorld :=
  { send := fun _ => .error thrown,
    metadata := (liftWorld emptyBucket).metadata,
    toBuffer := (liftWorld emptyBucket).toBuffer }

/-- A configuration with both environment variables set. -/
def sampleConfig : Config :=
  { BUCKET_NAME := some "images", SECRET_KEY := some "s3cret" }

/-- A request that carries the secret of `sampleConfig` under `x-origin-verify`. -/
def sampleEvent (path : Option String) (params : Option (List (String × String))) :
    Event :=
  { headers := some [("x-origin-verify", "s3cret")], path := path,
    queryStringParameters := params }

/-! ## General facts about the handler -/

theorem handler_forbidden (cfg : Config) (world : World) (event : Event)
    (h : cfSecret event ≠ cfg.SECRET_KEY) :
    handler cfg world event = (errorResponse 403 "Forbidden", []) := by
  simp [handler, handlerTry, settle, h]

theorem handler_missing_path (cfg : Config) (world : World) (event : Event)
    (hauth : cfSecret event = cfg.SECRET_KEY) (hpath : objectPath event = "") :
    handler cfg world event = (errorResponse 400 "Missing image path", []) := by
  simp [handler, handlerTry, settle, hauth, hpath]

theorem handler_invalid_dimension (cfg : Config) (world : World) (event : Event)
    (hauth : cfSecret event = cfg.SECRET_KEY) (hpath : objectPath event ≠ "")
    (hnan : parsedWidth event = none ∨ parsedHeight event = none) :
    handler cfg world event =
      (errorResponse 400 "Invalid width or height parameter", []) := by
  unfold handler handlerTry
  rw [if_neg (by simpa using hauth)]
  simp only [hpath, if_false]
  rcases hnan with hw | hh
  · simp [hw, settle]
  · cases hw : parsedWidth event <;> simp [hh, settle]

theorem handler_out_of_range (cfg : Config) (world : World) (event : Event)
    (width height : Int)
    (hauth : cfSecret event = cfg.SECRET_KEY) (hpath : objectPath event ≠ "")
    (hw : parsedWidth event = some width) (hh : parsedHeight event = some height)
    (hrange : width ≤ 0 ∨ height ≤ 0 ∨ width > MAX_DIMENSION ∨ height > MAX_DIMENSION) :
    handler cfg world event =
      (errorResponse 400
        ("Width and height must be between 1 and " ++ toString MAX_DIMENSION), []) := by
  unfold handler handlerTry
  rw [if_neg (by simpa using hauth)]
  simp only [hpath, if_false, hw, hh]
  rw [if_pos hrange]
  rfl

theorem handler_validated (cfg : Config) (world : World) (event : Event)
    (width height : Int)
    (hauth : cfSecret event = cfg.SECRET_KEY) (hpath : objectPath event ≠ "")
    (hw : parsedWidth event = some width) (hh : parsedHeight event = some height)
    (hrange : ¬ (width ≤ 0 ∨ height ≤ 0 ∨ width > MAX_DIMENSION ∨ height > MAX_DIMENSION)) :
    handler cfg world event =
      settle (fetchAndTransform cfg world event (objectPath event) width height) := by
  unfold handler handlerTry
  rw [if_neg (by simpa using hauth)]
  simp only [hpath, if_false, hw, hh]
  rw [if_neg hrange]

theorem handlerCatch_cases (error : JsError) :
    handlerCatch error = errorResponse 404 "Image not found" ∨
    handlerCatch error = errorResponse 403 "Access denied" ∨
    handlerCatch error = errorResponse 400 "Invalid image format" ∨
    handlerCatch error = errorResponse 500 "Internal server error" := by
  unfold handlerCatch
  split_ifs <;> simp

theorem fetch_send_error (cfg : Config) (world : World) (event : Event)
    (path : String) (width height : Int) (error : JsError)
    (hs : world.send { Bucket := cfg.BUCKET_NAME, Key := path } = .error error) :
    fetchAndTransform cfg world event path width height =
      (.error error, [.send { Bucket := cfg.BUCKET_NAME, Key := path }]) := by
  simp [fetchAndTransform, hs]

theorem fetch_too_large (cfg : Config) (world : World) (event : Event)
    (path : String) (width height : Int) (s3Response : GetObjectOutput)
    (hs : world.send { Bucket := cfg.BUCKET_NAME, Key := path } = .ok s3Response)
    (hlen : s3Response.ContentLength.getD 0 > MAX_FILE_SIZE) :
    fetchAndTransform cfg world event path width height =
      (.ok (errorResponse 413 "Image file too large"),
        [.send { Bucket := cfg.BUCKET_NAME, Key := path }]) := by
  simp [fetchAndTransform, hs, hlen]

theorem fetch_body_error (cfg : Config) (world : World) (event : Event)
    (path : String) (width height : Int) (s3Response : GetObjectOutput) (error : JsError)
    (hs : world.send { Bucket := cfg.BUCKET_NAME, Key := path } = .ok s3Response)
    (hlen : ¬ s3Response.ContentLength.getD 0 > MAX_FILE_SIZE)
    (hb : streamToBuffer s3Response.Body = .error error) :
    fetchAndTransform cfg world event path width height =
      (.error error, [.send { Bucket := cfg.BUCKET_NAME, Key := path }, .readBody]) := by
  simp [fetchAndTransform, hs, hlen, hb]

theorem fetch_decode_error (cfg : Config) (world : World) (event : Event)
    (path : String) (width height : Int) (s3Response : GetObjectOutput)
    (imageBuffer : Bytes) (error : JsError)
    (hs : world.send { Bucket := cfg.BUCKET_NAME, Key := path } = .ok s3Response)
    (hlen : ¬ s3Response.ContentLength.getD 0 > MAX_FILE_SIZE)
    (hb : streamToBuffer s3Response.Body = .ok imageBuffer)
    (hm : world.metadata imageBuffer = .error error) :
    fetchAndTransform cfg world event path width height =
      (.error error, [.send { Bucket := cfg.BUCKET_NAME, Key := path }, .readBody,
        .decode imageBuffer]) := by
  simp [fetchAndTransform, hs, hlen, hb, hm]

theorem fetch_encode_error (cfg : Config) (world : World) (event : Event)
    (path : String) (width height : Int) (s3Response : GetObjectOutput)
    (imageBuffer : Bytes) (metadata : Metadata) (error : JsError)
    (hs : world.send { Bucket := cfg.BUCKET_NAME, Key := path } = .ok s3Response)
    (hlen : ¬ s3Response.ContentLength.getD 0 > MAX_FILE_SIZE)
    (hb : streamToBuffer s3Response.Body = .ok imageBuffer)
    (hm : world.metadata imageBuffer = .ok metadata)
    (ht : world.toBuffer imageBuffer
      (sharpOps width height
        (resolveOutputFormat (getProp (queryParams event) "format") metadata.format)
        metadata.hasAlpha) = .error error) :
    fetchAndTransform cfg world event path width height =
      (.error error, [.send { Bucket := cfg.BUCKET_NAME, Key := path }, .readBody,
        .decode imageBuffer,
        .encode imageBuffer (sharpOps width height
          (resolveOutputFormat (getProp (queryParams event) "format") metadata.format)
          metadata.hasAlpha)]) := by
  simp [fetchAndTransform, hs, hlen, hb, hm, ht]

theorem fetch_success (cfg : Config) (world : World) (event : Event)
    (path : String) (width height : Int) (s3Response : GetObjectOutput)
    (imageBuffer : Bytes) (metadata : Metadata) (outputBuffer : Bytes)
    (hs : world.send { Bucket := cfg.BUCKET_NAME, Key := path } = .ok s3Response)
    (hlen : ¬ s3Response.ContentLength.getD 0 > MAX_FILE_SIZE)
    (hb : streamToBuffer s3Response.Body = .ok imageBuffer)
    (hm : world.metadata imageBuffer = .ok metadata)
    (ht : world.toBuffer imageBuffer
      (sharpOps width height
        (resolveOutputFormat (getProp (queryParams event) "format") metadata.format)
        metadata.hasAlpha) = .ok outputBuffer) :
    fetchAndTransform cfg world event path width height =
      (.ok (successResponse
          (resolveOutputFormat (getProp (queryParams event) "format") metadata.format)
          outputBuffer),
        [.send { Bucket := cfg.BUCKET_NAME, Key := path }, .readBody,
          .decode imageBuffer,
          .encode imageBuffer (sharpOps width height
            (resolveOutputFormat (getProp (queryParams event) "format") metadata.format)
            metadata.hasAlpha)]) := by
  simp [fetchAndTransform, hs, hlen, hb, hm, ht]

/-- What the handler can answer once validation has passed. -/
theorem settle_fetchAndTransform_cases (cfg : Config) (world : World) (event : Event)
    (path : String) (width height : Int) :
    (settle (fetchAndTransform cfg world event path width height)).1.statusCode = 200 ∨
    (settle (fetchAndTransform cfg world event path width height)).1 =
      errorResponse 413 "Image file too large" ∨
    (settle (fetchAndTransform cfg world event path width height)).1 =
      errorResponse 404 "Image not found" ∨
    (settle (fetchAndTransform cfg world event path width height)).1 =
      errorResponse 403 "Access denied" ∨
    (settle (fetchAndTransform cfg world event path width height)).1 =
      errorResponse 400 "Invalid image format" ∨
    (settle (fetchAndTransform cfg world event path width height)).1 =
      errorResponse 500 "Internal server error" := by
  have hcatch : ∀ (error : JsError) (effects : List Effect),
      (settle (.error error, effects)).1.statusCode = 200 ∨
      (settle (.error error, effects)).1 = errorResponse 413 "Image file too large" ∨
      (settle (.error error, effects)).1 = errorResponse 404 "Image not found" ∨
      (settle (.error error, effects)).1 = errorResponse 403 "Access denied" ∨
      (settle (.error error, effects)).1 = errorResponse 400 "Invalid image format" ∨
      (settle (.error error, effects)).1 = errorResponse 500 "Internal server error" := by
    intro error effects
    have h := handlerCatch_cases error
    simp only [settle]
    tauto
  cases hs : world.send { Bucket := cfg.BUCKET_NAME, Key := path } with
  | error error => rw [fetch_send_error _ _ _ _ _ _ _ hs]; exact hcatch _ _
  | ok s3Response =>
    by_cases hlen : s3Response.ContentLength.getD 0 > MAX_FILE_SIZE
    · rw [fetch_too_large _ _ _ _ _ _ _ hs hlen]; right; left; rfl
    · cases hb : streamToBuffer s3Response.Body with
      | error error => rw [fetch_body_error _ _ _ _ _ _ _ _ hs hlen hb]; exact hcatch _ _
      | ok imageBuffer =>
        cases hm : world.metadata imageBuffer with
        | error error =>
          rw [fetch_decode_error _ _ _ _ _ _ _ _ _ hs hlen hb hm]; exact hcatch _ _
        | ok metadata =>
          cases ht : world.toBuffer imageBuffer
              (sharpOps width height
                (resolveOutputFormat (getProp (queryParams event) "format") metadata.format)
                metadata.hasAlpha) with
          | error error =>
            rw [fetch_encode_error _ _ _ _ _ _ _ _ _ _ hs hlen hb hm ht]; exact hcatch _ _
          | ok outputBuffer =>
            rw [fetch_success _ _ _ _ _ _ _ _ _ _ hs hlen hb hm ht]; left; rfl

/-- The five ways through validation (lines 11-50), each with what the handler returns. -/
theorem handler_inv (cfg : Config) (world : World) (event : Event) :
    (cfSecret event ≠ cfg.SECRET_KEY ∧
      handler cfg world event = (errorResponse 403 "Forbidden", [])) ∨
    (cfSecret event = cfg.SECRET_KEY ∧ objectPath event = "" ∧
      handler cfg world event = (errorResponse 400 "Missing image path", [])) ∨
    (cfSecret event = cfg.SECRET_KEY ∧ objectPath event ≠ "" ∧
      (parsedWidth event = none ∨ parsedHeight event = none) ∧
      handler cfg world event =
        (errorResponse 400 "Invalid width or height parameter", [])) ∨
    (cfSecret event = cfg.SECRET_KEY ∧ objectPath event ≠ "" ∧
      ∃ width height, parsedWidth event = some width ∧ parsedHeight event = some height ∧
        (width ≤ 0 ∨ height ≤ 0 ∨ width > MAX_DIMENSION ∨ height > MAX_DIMENSION) ∧
        handler cfg world event =
          (errorResponse 400
            ("Width and height must be between 1 and " ++ toString MAX_DIMENSION), [])) ∨
    (cfSecret event = cfg.SECRET_KEY ∧ objectPath event ≠ "" ∧
      ∃ width height, parsedWidth event = some width ∧ parsedHeight event = some height ∧
        ¬ (width ≤ 0 ∨ height ≤ 0 ∨ width > MAX_DIMENSION ∨ height > MAX_DIMENSION) ∧
        handler cfg world event =
          settle (fetchAndTransform cfg world event (objectPath event) width height)) := by
  by_cases hauth : cfSecret event = cfg.SECRET_KEY
  swap
  · exact Or.inl ⟨hauth, handler_forbidden cfg world event hauth⟩
  by_cases hpath : objectPath event = ""
  · exact Or.inr (Or.inl ⟨hauth, hpath, handler_missing_path cfg world event hauth hpath⟩)
  cases hw : parsedWidth event with
  | none =>
    exact Or.inr (Or.inr (Or.inl ⟨hauth, hpath, Or.inl rfl,
      handler_invalid_dimension cfg world event hauth hpath (Or.inl hw)⟩))
  | some width =>
    cases hh : parsedHeight event with
    | none =>
      exact Or.inr (Or.inr (Or.inl ⟨hauth, hpath, Or.inr rfl,
        handler_invalid_dimension cfg world event hauth hpath (Or.inr hh)⟩))
    | some height =>
      by_cases hrange :
          width ≤ 0 ∨ height ≤ 0 ∨ width > MAX_DIMENSION ∨ height > MAX_DIMENSION
      · exact Or.inr (Or.inr (Or.inr (Or.inl ⟨hauth, hpath, width, height, rfl, rfl, hrange,
          handler_out_of_range cfg world event width height hauth hpath hw hh hrange⟩)))
      · exact Or.inr (Or.inr (Or.inr (Or.inr ⟨hauth, hpath, width, height, rfl, rfl, hrange,
          handler_validated cfg world event width height hauth hpath hw hh hrange⟩)))

/-- The six ways through lines 52-116, each with the collaborator results that select
it, what the block returns or throws, and the calls it made. -/
theorem fetchAndTransform_inv (cfg : Config) (world : World) (event : Event)
    (path : String) (width height : Int) :
    (∃ error, world.send { Bucket := cfg.BUCKET_NAME, Key := path } = .error error ∧
      fetchAndTransform cfg world event path width height =
        (.error error, [.send { Bucket := cfg.BUCKET_NAME, Key := path }])) ∨
    (∃ s3Response, world.send { Bucket := cfg.BUCKET_NAME, Key := path } = .ok s3Response ∧
      s3Response.ContentLength.getD 0 > MAX_FILE_SIZE ∧
      fetchAndTransform cfg world event path width height =
        (.ok (errorResponse 413 "Image file too large"),
          [.send { Bucket := cfg.BUCKET_NAME, Key := path }])) ∨
    (∃ s3Response error,
      world.send { Bucket := cfg.BUCKET_NAME, Key := path } = .ok s3Response ∧
      ¬ s3Response.ContentLength.getD 0 > MAX_FILE_SIZE ∧
      streamToBuffer s3Response.Body = .error error ∧
      fetchAndTransform cfg world event path width height =
        (.error error, [.send { Bucket := cfg.BUCKET_NAME, Key := path }, .readBody])) ∨
    (∃ s3Response imageBuffer error,
      world.send { Bucket := cfg.BUCKET_NAME, Key := path } = .ok s3Response ∧
      ¬ s3Response.ContentLength.getD 0 > MAX_FILE_SIZE ∧
      streamToBuffer s3Response.Body = .ok imageBuffer ∧
      world.metadata imageBuffer = .error error ∧
      fetchAndTransform cfg world event path width height =
        (.error error, [.send { Bucket := cfg.BUCKET_NAME, Key := path }, .readBody,
          .decode imageBuffer])) ∨
    (∃ s3Response imageBuffer metadata error,
      world.send { Bucket := cfg.BUCKET_NAME, Key := path } = .ok s3Response ∧
      ¬ s3Response.ContentLength.getD 0 > MAX_FILE_SIZE ∧
      streamToBuffer s3Response.Body = .ok imageBuffer ∧
      world.metadata imageBuffer = .ok metadata ∧
      world.toBuffer imageBuffer
        (sharpOps width height
          (resolveOutputFormat (getProp (queryParams event) "format") metadata.format)
          metadata.hasAlpha) = .error error ∧
      fetchAndTransform cfg world event path width height =
        (.error error, [.send { Bucket := cfg.BUCKET_NAME, Key := path }, .readBody,
          .decode imageBuffer,
          .encode imageBuffer (sharpOps width height
            (resolveOutputFormat (getProp (queryParams event) "format") metadata.format)
            metadata.hasAlpha)])) ∨
    (∃ s3Response imageBuffer metadata outputBuffer,
      world.send { Bucket := cfg.BUCKET_NAME, Key := path } = .ok s3Response ∧
      ¬ s3Response.ContentLength.getD 0 > MAX_FILE_SIZE ∧
      streamToBuffer s3Response.Body = .ok imageBuffer ∧
      world.metadata imageBuffer = .ok metadata ∧
      world.toBuffer imageBuffer
        (sharpOps width height
          (resolveOutputFormat (getProp (queryParams event) "format") metadata.format)
          metadata.hasAlpha) = .ok outputBuffer ∧
      fetchAndTransform cfg world event path width height =
        (.ok (successResponse
            (resolveOutputFormat (getProp (queryParams event) "format") metadata.format)
            outputBuffer),
          [.send { Bucket := cfg.BUCKET_NAME, Key := path }, .readBody,
            .decode imageBuffer,
            .encode imageBuffer (sharpOps width height
              (resolveOutputFormat (getProp (queryParams event) "format") metadata.format)
              metadata.hasAlpha)])) := by
  cases hs : world.send { Bucket := cfg.BUCKET_NAME, Key := path } with
  | error error =>
    exact Or.inl ⟨error, rfl, fetch_send_error _ _ _ _ _ _ _ hs⟩
  | ok s3Response =>
    by_cases hlen : s3Response.ContentLength.getD 0 > MAX_FILE_SIZE
    · exact Or.inr (Or.inl ⟨s3Response, rfl, hlen, fetch_too_large _ _ _ _ _ _ _ hs hlen⟩)
    · cases hb : streamToBuffer s3Response.Body with
      | error error =>
        exact Or.inr (Or.inr (Or.inl ⟨s3Response, error, rfl, hlen, hb,
          fetch_body_error _ _ _ _ _ _ _ _ hs hlen hb⟩))
      | ok imageBuffer =>
        cases hm : world.metadata imageBuffer with
        | error error =>
          exact Or.inr (Or.inr (Or.inr (Or.inl ⟨s3Response, imageBuffer, error, rfl, hlen,
            hb, hm, fetch_decode_error _ _ _ _ _ _ _ _ _ hs hlen hb hm⟩)))
        | ok metadata =>
          cases ht : world.toBuffer imageBuffer
              (sharpOps width height
                (resolveOutputFormat (getProp (queryParams event) "format") metadata.format)
                metadata.hasAlpha) with
          | error error =>
            exact Or.inr (Or.inr (Or.inr (Or.inr (Or.inl ⟨s3Response, imageBuffer, metadata,
              error, rfl, hlen, hb, hm, ht,
              fetch_encode_error _ _ _ _ _ _ _ _ _ _ hs hlen hb hm ht⟩))))
          | ok outputBuffer =>
            exact Or.inr (Or.inr (Or.inr (Or.inr (Or.inr ⟨s3Response, imageBuffer, metadata,
              outputBuffer, rfl, hlen, hb, hm, ht,
              fetch_success _ _ _ _ _ _ _ _ _ _ hs hlen hb hm ht⟩))))

/-- Every call the validated part of the handler makes is the fetch of `path` from the
configured bucket, the body read, a decode or an encode of one and the same buffer
through `sharpOps width height`, or the log of a thrown error. -/
theorem settle_fetchAndTransform_effects (cfg : Config) (world : World) (event : Event)
    (path : String) (width height : Int) :
    Effect.send { Bucket := cfg.BUCKET_NAME, Key := path } ∈
      (settle (fetchAndTransform cfg world event path width height)).2 ∧
    ∀ effect ∈ (settle (fetchAndTransform cfg world event path width height)).2,
      effect = .send { Bucket := cfg.BUCKET_NAME, Key := path } ∨ effect = .readBody ∨
      (∃ error, effect = .consoleError error) ∨
      (∃ s3Response imageBuffer,
        world.send { Bucket := cfg.BUCKET_NAME, Key := path } = .ok s3Response ∧
        ¬ s3Response.ContentLength.getD 0 > MAX_FILE_SIZE ∧
        streamToBuffer s3Response.Body = .ok imageBuffer ∧
        (effect = .decode imageBuffer ∨
          ∃ metadata, world.metadata imageBuffer = .ok metadata ∧
            effect = .encode imageBuffer (sharpOps width height
              (resolveOutputFormat (getProp (queryParams event) "format") metadata.format)
              metadata.hasAlpha))) := by
  rcases fetchAndTransform_inv cfg world event path width height with
    ⟨error, _, h⟩ | ⟨s3Response, _, _, h⟩ | ⟨s3Response, error, _, _, _, h⟩ |
    ⟨s3Response, imageBuffer, error, hs, hlen, hb, _, h⟩ |
    ⟨s3Response, imageBuffer, metadata, error, hs, hlen, hb, hm, _, h⟩ |
    ⟨s3Response, imageBuffer, metadata, outputBuffer, hs, hlen, hb, hm, _, h⟩
  · rw [h]; simp [settle]
  · rw [h]; simp [settle]
  · rw [h]; simp [settle]
  · rw [h]
    refine ⟨by simp [settle], ?_⟩
    intro effect he
    simp only [settle, List.cons_append, List.nil_append, List.mem_cons,
      List.mem_singleton, List.not_mem_nil, or_false] at he
    rcases he with he | he | he | he
    · exact Or.inl he
    · exact Or.inr (Or.inl he)
    · exact Or.inr (Or.inr (Or.inr ⟨s3Response, imageBuffer, hs, hlen, hb, Or.inl he⟩))
    · exact Or.inr (Or.inr (Or.inl ⟨error, he⟩))
  · rw [h]
    refine ⟨by simp [settle], ?_⟩
    intro effect he
    simp only [settle, List.cons_append, List.nil_append, List.mem_cons,
      List.mem_singleton, List.not_mem_nil, or_false] at he
    rcases he with he | he | he | he | he
    · exact Or.inl he
    · exact Or.inr (Or.inl he)
    · exact Or.inr (Or.inr (Or.inr ⟨s3Response, imageBuffer, hs, hlen, hb, Or.inl he⟩))
    · exact Or.inr (Or.inr (Or.inr ⟨s3Response, imageBuffer, hs, hlen, hb,
        Or.inr ⟨metadata, hm, he⟩⟩))
    · exact Or.inr (Or.inr (Or.inl ⟨error, he⟩))
  · rw [h]
    refine ⟨by simp [settle], ?_⟩
    intro effect he
    simp only [settle, List.mem_cons, List.mem_singleton, List.not_mem_nil,
      or_false] at he
    rcases he with he | he | he | he
    · exact Or.inl he
    · exact Or.inr (Or.inl he)
    · exact Or.inr (Or.inr (Or.inr ⟨s3Response, imageBuffer, hs, hlen, hb, Or.inl he⟩))
    · exact Or.inr (Or.inr (Or.inr ⟨s3Response, imageBuffer, hs, hlen, hb,
        Or.inr ⟨metadata, hm, he⟩⟩))

/-- What an authenticated request can be answered with. -/
theorem handler_authenticated_cases (cfg : Config) (world : World) (event : Event)
    (hauth : cfSecret event = cfg.SECRET_KEY) :
    (handler cfg world event).1 = errorResponse 400 "Missing image path" ∨
    (handler cfg world event).1 = errorResponse 400 "Invalid width or height parameter" ∨
    (handler cfg world event).1 = errorResponse 400
      ("Width and height must be between 1 and " ++ toString MAX_DIMENSION) ∨
    (handler cfg world event).1.statusCode = 200 ∨
    (handler cfg world event).1 = errorResponse 413 "Image file too large" ∨
    (handler cfg world event).1 = errorResponse 404 "Image not found" ∨
    (handler cfg world event).1 = errorResponse 403 "Access denied" ∨
    (handler cfg world event).1 = errorResponse 400 "Invalid image format" ∨
    (handler cfg world event).1 = errorResponse 500 "Internal server error" := by
  rcases handler_inv cfg world event with
    ⟨hne, _⟩ | ⟨_, _, h⟩ | ⟨_, _, _, h⟩ | ⟨_, _, _, _, _, _, _, h⟩ |
    ⟨_, _, width, height, _, _, _, h⟩
  · exact absurd hauth hne
  · rw [h]; exact Or.inl rfl
  · rw [h]; exact Or.inr (Or.inl rfl)
  · rw [h]; exact Or.inr (Or.inr (Or.inl rfl))
  · rw [h]
    have hc := settle_fetchAndTransform_cases cfg world event (objectPath event) width height
    tauto

/-- The header value the handler compares, when the secret is sent under one of the two
names it looks up. -/
theorem cfSecret_of_sent (event : Event) (secret : String) (hne : secret ≠ "")
    (hsent : getProp (event.headers.getD []) "x-origin-verify" = some secret ∨
      ((getProp (event.headers.getD []) "x-origin-verify" = none ∨
          getProp (event.headers.getD []) "x-origin-verify" = some "") ∧
        getProp (event.headers.getD []) "X-Origin-Verify" = some secret)) :
    cfSecret event = some secret := by
  unfold cfSecret
  rcases hsent with h | ⟨h | h, h2⟩
  · simp [h, jsOr, truthy, hne]
  · simp [h, h2, jsOr, truthy]
  · simp [h, h2, jsOr, truthy]

/-- The default `'200'` parses to 200. -/
theorem parseInt_default : parseInt "200" = some 200 := by decide

/-- The pipeline starts with the resize to the given box, and holds no other resize. -/
theorem sharpOps_resize (width height : Int) (outputFormat : String) (hasAlpha : Bool) :
    (sharpOps width height outputFormat hasAlpha).head? =
      some (SharpOp.resize width height "inside" false) ∧
    ∀ op ∈ (sharpOps width height outputFormat hasAlpha).tail,
      ∀ w h f e, op ≠ SharpOp.resize w h f e := by
  unfold sharpOps
  split_ifs <;> simp

/-- Every encode the validated part of the handler runs starts with the resize to
`width` by `height`, fit "inside", enlargement allowed, and resizes only once. -/
theorem settle_fetchAndTransform_encode (cfg : Config) (world : World) (event : Event)
    (path : String) (width height : Int) (imageBuffer : Bytes) (ops : List SharpOp)
    (hmem : Effect.encode imageBuffer ops ∈
      (settle (fetchAndTransform cfg world event path width height)).2) :
    ops.head? = some (SharpOp.resize width height "inside" false) ∧
    ∀ op ∈ ops.tail, ∀ w h f e, op ≠ SharpOp.resize w h f e := by
  rcases (settle_fetchAndTransform_effects cfg world event path width height).2 _ hmem with
    he | he | ⟨_, he⟩ | ⟨_, _, _, _, _, he | ⟨metadata, _, he⟩⟩
  · cases he
  · cases he
  · cases he
  · cases he
  · cases he
    exact sharpOps_resize _ _ _ _

/-- The chunks collected from a stream that ends normally hold the bytes it delivered. -/
theorem collectChunks_length (stream : BodyStream) (chunks result : List Bytes)
    (h : collectChunks stream chunks = .ok result) :
    result.flatten.length = chunks.flatten.length + streamedBytes stream := by
  induction stream generalizing chunks with
  | done =>
    simp only [collectChunks, Except.ok.injEq] at h
    subst h
    simp [streamedBytes]
  | fail error => simp [collectChunks] at h
  | chunk bytes rest ih =>
    simp only [collectChunks] at h
    rw [ih _ h]
    simp [streamedBytes, Nat.add_assoc]

/-- The buffer `streamToBuffer` returns is as long as what the stream delivered. -/
theorem streamToBuffer_length (stream : BodyStream) (imageBuffer : Bytes)
    (h : streamToBuffer stream = .ok imageBuffer) :
    imageBuffer.length = streamedBytes stream := by
  unfold streamToBuffer at h
  cases hc : collectChunks stream [] with
  | error error => rw [hc] at h; simp at h
  | ok chunks =>
    rw [hc] at h
    simp only [Except.ok.injEq] at h
    subst h
    simpa using collectChunks_length stream [] chunks hc

/-- A body made of a single chunk is buffered as that chunk. -/
theorem streamToBuffer_single (bytes : Bytes) :
    streamToBuffer (.chunk bytes .done) = .ok bytes := by
  simp [streamToBuffer, collectChunks]

/-- What the handler does with a one-chunk PNG whose reported length passes the guard,
whatever the chunk holds. -/
theorem handler_single_chunk (contentLength : Option Nat) (bytes : Bytes)
    (hlen : ¬ contentLength.getD 0 > MAX_FILE_SIZE) :
    handler sampleConfig
        (servingWorld { ContentLength := contentLength, Body := .chunk bytes .done }
          { format := some "png", hasAlpha := false } [9, 9, 9])
        (sampleEvent (some "/a.png") none) =
      (successResponse "png" [9, 9, 9],
       [Effect.send { Bucket := some "images", Key := "a.png" }, Effect.readBody,
        Effect.decode bytes,
        Effect.encode bytes [SharpOp.resize 200 200 "inside" false, SharpOp.png 85 8]]) := by
  rw [handler_validated sampleConfig _ (sampleEvent (some "/a.png") none) 200 200
    (by decide) (by decide) (by decide) (by decide) (by decide)]
  rw [fetch_success sampleConfig _ (sampleEvent (some "/a.png") none) _ 200 200
    { ContentLength := contentLength, Body := .chunk bytes .done } bytes
    { format := some "png", hasAlpha := false } [9, 9, 9] rfl hlen
    (streamToBuffer_single bytes) rfl rfl]
  rfl

/-! ## The claims -/

/-- C1, the code at its failing input: with `SECRET_KEY` never set, a request that
carries no header at all is not answered 403 "Forbidden"; the handler accepts it, fetches
the object `a.png` and answers with what the fetch gives, here 404 "Image not found". -/
theorem C1_unset_secret_admits_request_without_header :
    cfSecret { headers := none, path := some "/a.png", queryStringParameters := none } =
      none ∧
    handler { BUCKET_NAME := some "images", SECRET_KEY := none } emptyBucket
        { headers := none, path := some "/a.png", queryStringParameters := none } =
      ({ statusCode := 404, headers := none,
         body := "\x7b\"error\":\"Image not found\"\x7d", isBase64Encoded := none },
       [Effect.send { Bucket := some "images", Key := "a.png" },
        Effect.consoleError
          { name := some "NoSuchKey", httpStatusCode := some 404,
            message := some "The specified key does not exist." }]) := by
  decide

/-- C2 as stated fails: the name `X-ORIGIN-VERIFY` equals `x-origin-verify` up to letter
case, yet a request that carries the configured secret under it is answered
403 "Forbidden". -/
theorem C2_upper_case_name_is_forbidden :
    toLowerCase "X-ORIGIN-VERIFY" = "x-origin-verify" ∧
    handler { BUCKET_NAME := some "images", SECRET_KEY := some "s3cret" } emptyBucket
        { headers := some [("X-ORIGIN-VERIFY", "s3cret")], path := some "/a.png",
          queryStringParameters := none } =
      ({ statusCode := 403, headers := none,
         body := "\x7b\"error\":\"Forbidden\"\x7d", isBase64Encoded := none }, []) := by
  decide

/-- C2, amended: the handler looks the header up under the two spellings
`x-origin-verify` and `X-Origin-Verify`.  When the configured secret is a non-empty
string and the request carries it under `x-origin-verify`, or under `X-Origin-Verify`
while `x-origin-verify` is absent or empty, the request passes authentication: the
handler does not answer it with 403 "Forbidden". -/
theorem C2_two_spellings_pass_authentication (cfg : Config) (world : World)
    (event : Event) (secret : String)
    (hcfg : cfg.SECRET_KEY = some secret) (hne : secret ≠ "")
    (hsent : getProp (event.headers.getD []) "x-origin-verify" = some secret ∨
      ((getProp (event.headers.getD []) "x-origin-verify" = none ∨
          getProp (event.headers.getD []) "x-origin-verify" = some "") ∧
        getProp (event.headers.getD []) "X-Origin-Verify" = some secret)) :
    cfSecret event = cfg.SECRET_KEY ∧
    ¬ ((handler cfg world event).1.statusCode = 403 ∧
       (handler cfg world event).1.body = "\x7b\"error\":\"Forbidden\"\x7d") := by
  have hauth : cfSecret event = cfg.SECRET_KEY := by
    rw [hcfg]; exact cfSecret_of_sent event secret hne hsent
  refine ⟨hauth, ?_⟩
  rcases handler_authenticated_cases cfg world event hauth with
    h | h | h | h | h | h | h | h | h
  all_goals first
    | (rw [h]; decide)
    | (rw [h]; intro hc; exact absurd hc.1 (by decide))

/-- C2, amended, at a concrete request: the secret sent under `X-Origin-Verify`. -/
theorem C2_two_spellings_pass_authentication_witness :
    cfSecret { headers := some [("X-Origin-Verify", "s3cret")], path := some "/a.png",
               queryStringParameters := none } = some "s3cret" ∧
    ¬ ((handler { BUCKET_NAME := some "images", SECRET_KEY := some "s3cret" } emptyBucket
          { headers := some [("X-Origin-Verify", "s3cret")], path := some "/a.png",
            queryStringParameters := none }).1.statusCode = 403 ∧
       (handler { BUCKET_NAME := some "images", SECRET_KEY := some "s3cret" } emptyBucket
          { headers := some [("X-Origin-Verify", "s3cret")], path := some "/a.png",
            queryStringParameters := none }).1.body =
         "\x7b\"error\":\"Forbidden\"\x7d") :=
  C2_two_spellings_pass_authentication
    { BUCKET_NAME := some "images", SECRET_KEY := some "s3cret" } emptyBucket
    { headers := some [("X-Origin-Verify", "s3cret")], path := some "/a.png",
      queryStringParameters := none } "s3cret" rfl (by decide)
    (Or.inr ⟨Or.inl (by decide), by decide⟩)

/-- C3: for an authenticated request the handler answers 400 "Missing image path"
exactly when the path with one leading slash removed is empty, which happens exactly
for an absent path, the empty path and the path "/".  Every fetch the handler issues
uses that stripped path as its key; "//" is stripped to "/" and "cats/a.png" is left
as it is, neither being empty. -/
theorem C3_missing_path_iff_stripped_path_empty (cfg : Config) (world : World)
    (event : Event) (hauth : cfSecret event = cfg.SECRET_KEY) :
    (((handler cfg world event).1.statusCode = 400 ∧
        (handler cfg world event).1.body = "\x7b\"error\":\"Missing image path\"\x7d") ↔
      objectPath event = "") ∧
    (objectPath event = "" ↔
      event.path = none ∨ event.path = some "" ∨ event.path = some "/") ∧
    (∀ command, Effect.send command ∈ (handler cfg world event).2 →
      command.Key = objectPath event) ∧
    objectPath { event with path := some "//" } = "/" ∧
    objectPath { event with path := some "cats/a.png" } = "cats/a.png" := by
  refine ⟨⟨?_, ?_⟩, ?_, ?_, rfl, rfl⟩
  · intro hresp
    by_contra hpath
    rcases handler_inv cfg world event with
      ⟨hne, _⟩ | ⟨_, he, _⟩ | ⟨_, _, _, h⟩ | ⟨_, _, _, _, _, _, _, h⟩ |
      ⟨_, _, width, height, _, _, _, h⟩
    · exact hne hauth
    · exact hpath he
    · rw [h] at hresp; exact absurd hresp.2 (by decide)
    · rw [h] at hresp; exact absurd hresp.2 (by decide)
    · rw [h] at hresp
      rcases settle_fetchAndTransform_cases cfg world event (objectPath event) width height
        with hc | hc | hc | hc | hc | hc
      · rw [hc] at hresp; exact absurd hresp.1 (by decide)
      all_goals (rw [hc] at hresp; exact absurd hresp.2 (by decide))
  · intro hpath
    rw [handler_missing_path cfg world event hauth hpath]
    decide
  · unfold objectPath jsOrStr stripLeadingSlash
    cases hp : event.path with
    | none => simp
    | some s =>
      rcases s with ⟨l⟩
      rcases l with _ | ⟨c, rest⟩
      · simp
      · by_cases hc : c = '/'
        · subst hc
          by_cases hr : rest = []
          · subst hr; decide
          · have h1 : (String.mk ('/' :: rest) != "") = true := by
              simp [bne_iff_ne, String.ext_iff]
            simp only [h1, if_true]
            simp [String.ext_iff, hr]
        · have h1 : (String.mk (c :: rest) != "") = true := by
            simp [bne_iff_ne, String.ext_iff]
          simp only [h1, if_true]
          have h2 : (match (String.mk (c :: rest)).data with
              | '/' :: rest => String.mk rest
              | _ => String.mk (c :: rest)) = String.mk (c :: rest) := by
            split
            · next r heq =>
                simp only [List.cons.injEq] at heq
                exact absurd heq.1 hc
            · rfl
          rw [h2]
          simp [String.ext_iff, hc]
  · intro command hmem
    rcases handler_inv cfg world event with
      ⟨_, h⟩ | ⟨_, _, h⟩ | ⟨_, _, _, h⟩ | ⟨_, _, _, _, _, _, _, h⟩ |
      ⟨_, _, width, height, _, _, _, h⟩
    · rw [h] at hmem; simp at hmem
    · rw [h] at hmem; simp at hmem
    · rw [h] at hmem; simp at hmem
    · rw [h] at hmem; simp at hmem
    · rw [h] at hmem
      rcases (settle_fetchAndTransform_effects cfg world event (objectPath event)
          width height).2 _ hmem with
        he | he | ⟨_, he⟩ | ⟨_, _, _, _, _, he | ⟨_, _, he⟩⟩
      · cases he; rfl
      all_goals cases he

/-- C3 at an authenticated request for the path "//": it is not answered
"Missing image path", and the fetch it issues has the key "/". -/
theorem C3_missing_path_iff_stripped_path_empty_witness :
    cfSecret (sampleEvent (some "//") none) = sampleConfig.SECRET_KEY ∧
    ¬ ((handler sampleConfig emptyBucket (sampleEvent (some "//") none)).1.statusCode = 400 ∧
        (handler sampleConfig emptyBucket (sampleEvent (some "//") none)).1.body =
          "\x7b\"error\":\"Missing image path\"\x7d") ∧
    Effect.send { Bucket := some "images", Key := "/" } ∈
      (handler sampleConfig emptyBucket (sampleEvent (some "//") none)).2 ∧
    objectPath (sampleEvent (some "//") none) = "/" := by
  have h := C3_missing_path_iff_stripped_path_empty sampleConfig emptyBucket
    (sampleEvent (some "//") none) (by decide)
  refine ⟨by decide, ?_, by decide, by decide⟩
  intro hresp
  exact absurd (h.1.1 hresp) (by decide)

/-- C4 as stated fails: width "12abc" and height "1.5" are present and are not integer
numerals, yet the request is not answered 400; `parseInt` reads their numeric beginnings,
the image is resized to 12 by 1 and the handler answers 200. -/
theorem C4_numeric_beginning_is_accepted :
    handler sampleConfig
        (servingWorld { ContentLength := some 3, Body := .chunk [1, 2, 3] .done }
          { format := some "png", hasAlpha := false } [9, 9, 9])
        (sampleEvent (some "/a.png") (some [("width", "12abc"), ("height", "1.5")])) =
      ({ statusCode := 200,
         headers := some [("Content-Type", "image/png"),
                          ("Cache-Control", "public, max-age=86400")],
         body := "CQkJ", isBase64Encoded := some true },
       [Effect.send { Bucket := some "images", Key := "a.png" }, Effect.readBody,
        Effect.decode [1, 2, 3],
        Effect.encode [1, 2, 3] [SharpOp.resize 12 1 "inside" false, SharpOp.png 85 8]]) := by
  decide

/-- C4, amended: for an authenticated request with a non-empty object path, if
`parseInt` gives `NaN` for the width or for the height, the handler answers
400 "Invalid width or height parameter" and calls no collaborator, whatever the other
dimension is.  `NaN` arises only from a parameter that is present, non-empty and has no
decimal digit after its leading white space and optional sign, such as "abc"; a value
that begins with digits is read as that beginning ("12abc" as 12, "1.5" as 1). -/
theorem C4_unparsable_dimension_rejected (cfg : Config) (world : World) (event : Event)
    (hauth : cfSecret event = cfg.SECRET_KEY) (hpath : objectPath event ≠ "")
    (hnan : parsedWidth event = none ∨ parsedHeight event = none) :
    handler cfg world event =
      ({ statusCode := 400, headers := none,
         body := "\x7b\"error\":\"Invalid width or height parameter\"\x7d",
         isBase64Encoded := none }, []) ∧
    (parsedWidth event = none ↔
      ∃ s, getProp (queryParams event) "width" = some s ∧ s ≠ "" ∧ parseInt s = none) ∧
    (parsedHeight event = none ↔
      ∃ s, getProp (queryParams event) "height" = some s ∧ s ≠ "" ∧ parseInt s = none) ∧
    parseInt "abc" = none ∧ parseInt "12abc" = some 12 ∧ parseInt "1.5" = some 1 := by
  have key : ∀ v : Option String, parseInt (jsOrStr v "200") = none ↔
      ∃ s, v = some s ∧ s ≠ "" ∧ parseInt s = none := by
    intro v
    cases v with
    | none => simp [jsOrStr, parseInt_default]
    | some s =>
      by_cases hs : s = ""
      · subst hs; simp [jsOrStr, parseInt_default]
      · simp [jsOrStr, hs]
  refine ⟨?_, key _, key _, by decide, by decide, by decide⟩
  rw [handler_invalid_dimension cfg world event hauth hpath hnan]
  rfl

/-- C4, amended, at width "abc" with the height 0 out of range. -/
theorem C4_unparsable_dimension_rejected_witness :
    cfSecret (sampleEvent (some "/a.png") (some [("width", "abc"), ("height", "0")])) =
      sampleConfig.SECRET_KEY ∧
    parsedHeight (sampleEvent (some "/a.png") (some [("width", "abc"), ("height", "0")])) =
      some 0 ∧
    handler sampleConfig emptyBucket
        (sampleEvent (some "/a.png") (some [("width", "abc"), ("height", "0")])) =
      ({ statusCode := 400, headers := none,
         body := "\x7b\"error\":\"Invalid width or height parameter\"\x7d",
         isBase64Encoded := none }, []) :=
  ⟨by decide, by decide,
    (C4_unparsable_dimension_rejected sampleConfig emptyBucket
      (sampleEvent (some "/a.png") (some [("width", "abc"), ("height", "0")]))
      (by decide) (by decide) (Or.inl (by decide))).1⟩

/-- C5: for an authenticated request with a non-empty object path whose width and height
both parse, the handler answers 400 "Width and height must be between 1 and 4096", and
calls no collaborator, as soon as one of the two is at most 0 or above 4096; when both
lie between 1 and 4096, bounds included, the request is not answered with that message
and the handler goes on to fetch the object. -/
theorem C5_out_of_range_rejected (cfg : Config) (world : World) (event : Event)
    (width height : Int)
    (hauth : cfSecret event = cfg.SECRET_KEY) (hpath : objectPath event ≠ "")
    (hw : parsedWidth event = some width) (hh : parsedHeight event = some height) :
    ((width ≤ 0 ∨ height ≤ 0 ∨ width > 4096 ∨ height > 4096) →
      handler cfg world event =
        ({ statusCode := 400, headers := none,
           body := "\x7b\"error\":\"Width and height must be between 1 and 4096\"\x7d",
           isBase64Encoded := none }, [])) ∧
    ((1 ≤ width ∧ width ≤ 4096 ∧ 1 ≤ height ∧ height ≤ 4096) →
      handler cfg world event =
        settle (fetchAndTransform cfg world event (objectPath event) width height) ∧
      Effect.send { Bucket := cfg.BUCKET_NAME, Key := objectPath event } ∈
        (handler cfg world event).2 ∧
      ¬ ((handler cfg world event).1.statusCode = 400 ∧
         (handler cfg world event).1.body =
           "\x7b\"error\":\"Width and height must be between 1 and 4096\"\x7d")) := by
  constructor
  · intro hrange
    rw [handler_out_of_range cfg world event width height hauth hpath hw hh
      (by simpa [MAX_DIMENSION] using hrange)]
    rfl
  · intro hin
    have hnot : ¬ (width ≤ 0 ∨ height ≤ 0 ∨ width > MAX_DIMENSION ∨
        height > MAX_DIMENSION) := by
      simp only [MAX_DIMENSION]; omega
    have hv := handler_validated cfg world event width height hauth hpath hw hh hnot
    refine ⟨hv, ?_, ?_⟩
    · rw [hv]
      exact (settle_fetchAndTransform_effects cfg world event _ width height).1
    · rw [hv]
      rcases settle_fetchAndTransform_cases cfg world event (objectPath event) width height
        with hc | hc | hc | hc | hc | hc
      · intro hresp; rw [hc] at hresp; exact absurd hresp.1 (by decide)
      all_goals (rw [hc]; decide)

/-- C5 at width "0", which is rejected, and at width "1" with height "4096", which
is accepted. -/
theorem C5_out_of_range_rejected_witness :
    (parsedWidth (sampleEvent (some "/a.png") (some [("width", "0")])) = some 0 ∧
      handler sampleConfig emptyBucket
          (sampleEvent (some "/a.png") (some [("width", "0")])) =
        ({ statusCode := 400, headers := none,
           body := "\x7b\"error\":\"Width and height must be between 1 and 4096\"\x7d",
           isBase64Encoded := none }, [])) ∧
    (parsedWidth (sampleEvent (some "/a.png")
        (some [("width", "1"), ("height", "4096")])) = some 1 ∧
      parsedHeight (sampleEvent (some "/a.png")
        (some [("width", "1"), ("height", "4096")])) = some 4096 ∧
      Effect.send { Bucket := some "images", Key := "a.png" } ∈
        (handler sampleConfig emptyBucket
          (sampleEvent (some "/a.png") (some [("width", "1"), ("height", "4096")]))).2) :=
  ⟨⟨by decide,
      (C5_out_of_range_rejected sampleConfig emptyBucket
        (sampleEvent (some "/a.png") (some [("width", "0")])) 0 200
        (by decide) (by decide) (by decide) (by decide)).1 (Or.inl (by decide))⟩,
    ⟨by decide, by decide,
      ((C5_out_of_range_rejected sampleConfig emptyBucket
        (sampleEvent (some "/a.png") (some [("width", "1"), ("height", "4096")])) 1 4096
        (by decide) (by decide) (by decide) (by decide)).2
          ⟨by decide, by decide, by decide, by decide⟩).2.1⟩⟩

/-- C6: whenever the handler issues the storage fetch, the width and height parsed from
the request are integers between 1 and 4096, they are the ones the rest of the pipeline
runs with, and every encode the handler then runs starts with the resize to exactly that
width and height and holds no other resize. -/
theorem C6_fetch_implies_dimensions_in_range (cfg : Config) (world : World)
    (event : Event) (command : GetObjectCommand)
    (hsend : Effect.send command ∈ (handler cfg world event).2) :
    ∃ width height : Int,
      parsedWidth event = some width ∧ parsedHeight event = some height ∧
      1 ≤ width ∧ width ≤ 4096 ∧ 1 ≤ height ∧ height ≤ 4096 ∧
      handler cfg world event =
        settle (fetchAndTransform cfg world event (objectPath event) width height) ∧
      ∀ imageBuffer ops, Effect.encode imageBuffer ops ∈ (handler cfg world event).2 →
        ops.head? = some (SharpOp.resize width height "inside" false) ∧
        ∀ op ∈ ops.tail, ∀ w h f e, op ≠ SharpOp.resize w h f e := by
  rcases handler_inv cfg world event with
    ⟨_, h⟩ | ⟨_, _, h⟩ | ⟨_, _, _, h⟩ | ⟨_, _, _, _, _, _, _, h⟩ |
    ⟨_, _, width, height, hw, hh, hrange, h⟩
  · rw [h] at hsend; simp at hsend
  · rw [h] at hsend; simp at hsend
  · rw [h] at hsend; simp at hsend
  · rw [h] at hsend; simp at hsend
  · simp only [MAX_DIMENSION] at hrange
    refine ⟨width, height, hw, hh, by omega, by omega, by omega, by omega, h, ?_⟩
    intro imageBuffer ops hmem
    rw [h] at hmem
    exact settle_fetchAndTransform_encode cfg world event _ width height imageBuffer ops hmem

/-- C6 at a request for a 4096 by 1 thumbnail that the storage and the codec serve. -/
theorem C6_fetch_implies_dimensions_in_range_witness :
    Effect.send { Bucket := some "images", Key := "a.png" } ∈
      (handler sampleConfig
        (servingWorld { ContentLength := some 3, Body := .chunk [1, 2, 3] .done }
          { format := some "png", hasAlpha := false } [9, 9, 9])
        (sampleEvent (some "/a.png") (some [("width", "4096"), ("height", "1")]))).2 ∧
    Effect.encode [1, 2, 3] [SharpOp.resize 4096 1 "inside" false, SharpOp.png 85 8] ∈
      (handler sampleConfig
        (servingWorld { ContentLength := some 3, Body := .chunk [1, 2, 3] .done }
          { format := some "png", hasAlpha := false } [9, 9, 9])
        (sampleEvent (some "/a.png") (some [("width", "4096"), ("height", "1")]))).2 ∧
    ∃ width height : Int,
      parsedWidth (sampleEvent (some "/a.png")
        (some [("width", "4096"), ("height", "1")])) = some width ∧
      parsedHeight (sampleEvent (some "/a.png")
        (some [("width", "4096"), ("height", "1")])) = some height ∧
      1 ≤ width ∧ width ≤ 4096 ∧ 1 ≤ height ∧ height ≤ 4096 := by
  refine ⟨by decide, by decide, ?_⟩
  obtain ⟨width, height, hw, hh, h1, h2, h3, h4, _⟩ :=
    C6_fetch_implies_dimensions_in_range sampleConfig
      (servingWorld { ContentLength := some 3, Body := .chunk [1, 2, 3] .done }
        { format := some "png", hasAlpha := false } [9, 9, 9])
      (sampleEvent (some "/a.png") (some [("width", "4096"), ("height", "1")]))
      { Bucket := some "images", Key := "a.png" } (by decide)
  exact ⟨width, height, hw, hh, h1, h2, h3, h4⟩

/-- C7: for an authenticated request with a non-empty object path, an absent width
(respectively height) parameter reads as 200, and so do both when the request has no
query-parameter mapping at all.  With the other dimension between 1 and 4096 the request
passes dimension validation, the object is fetched and every encode starts with the
resize that has 200 for the absent dimension. -/
theorem C7_absent_dimension_defaults_to_200 (cfg : Config) (world : World)
    (event : Event)
    (hauth : cfSecret event = cfg.SECRET_KEY) (hpath : objectPath event ≠ "") :
    (getProp (queryParams event) "width" = none → parsedWidth event = some 200) ∧
    (getProp (queryParams event) "height" = none → parsedHeight event = some 200) ∧
    (event.queryStringParameters = none →
      parsedWidth event = some 200 ∧ parsedHeight event = some 200 ∧
      handler cfg world event =
        settle (fetchAndTransform cfg world event (objectPath event) 200 200)) ∧
    (getProp (queryParams event) "width" = none →
      ∀ height : Int, parsedHeight event = some height → 1 ≤ height → height ≤ 4096 →
        handler cfg world event =
          settle (fetchAndTransform cfg world event (objectPath event) 200 height) ∧
        Effect.send { Bucket := cfg.BUCKET_NAME, Key := objectPath event } ∈
          (handler cfg world event).2 ∧
        ∀ imageBuffer ops, Effect.encode imageBuffer ops ∈ (handler cfg world event).2 →
          ops.head? = some (SharpOp.resize 200 height "inside" false)) ∧
    (getProp (queryParams event) "height" = none →
      ∀ width : Int, parsedWidth event = some width → 1 ≤ width → width ≤ 4096 →
        handler cfg world event =
          settle (fetchAndTransform cfg world event (objectPath event) width 200) ∧
        Effect.send { Bucket := cfg.BUCKET_NAME, Key := objectPath event } ∈
          (handler cfg world event).2 ∧
        ∀ imageBuffer ops, Effect.encode imageBuffer ops ∈ (handler cfg world event).2 →
          ops.head? = some (SharpOp.resize width 200 "inside" false)) := by
  have hwd : getProp (queryParams event) "width" = none → parsedWidth event = some 200 := by
    intro h; simp [parsedWidth, h, jsOrStr, parseInt_default]
  have hhd : getProp (queryParams event) "height" = none →
      parsedHeight event = some 200 := by
    intro h; simp [parsedHeight, h, jsOrStr, parseInt_default]
  have hgo : ∀ width height : Int, parsedWidth event = some width →
      parsedHeight event = some height → 1 ≤ width → width ≤ 4096 → 1 ≤ height →
      height ≤ 4096 →
      handler cfg world event =
        settle (fetchAndTransform cfg world event (objectPath event) width height) ∧
      Effect.send { Bucket := cfg.BUCKET_NAME, Key := objectPath event } ∈
        (handler cfg world event).2 ∧
      ∀ imageBuffer ops, Effect.encode imageBuffer ops ∈ (handler cfg world event).2 →
        ops.head? = some (SharpOp.resize width height "inside" false) := by
    intro width height hw hh h1 h2 h3 h4
    have hnot : ¬ (width ≤ 0 ∨ height ≤ 0 ∨ width > MAX_DIMENSION ∨
        height > MAX_DIMENSION) := by
      simp only [MAX_DIMENSION]; omega
    have hv := handler_validated cfg world event width height hauth hpath hw hh hnot
    refine ⟨hv, ?_, ?_⟩
    · rw [hv]
      exact (settle_fetchAndTransform_effects cfg world event _ width height).1
    · intro imageBuffer ops hmem
      rw [hv] at hmem
      exact (settle_fetchAndTransform_encode cfg world event _ width height
        imageBuffer ops hmem).1
  refine ⟨hwd, hhd, ?_, ?_, ?_⟩
  · intro hq
    have hw : parsedWidth event = some 200 := hwd (by simp [queryParams, hq, getProp])
    have hh : parsedHeight event = some 200 := hhd (by simp [queryParams, hq, getProp])
    exact ⟨hw, hh, (hgo 200 200 hw hh (by decide) (by decide) (by decide) (by decide)).1⟩
  · intro hq height hh h1 h2
    exact hgo 200 height (hwd hq) hh (by decide) (by decide) h1 h2
  · intro hq width hw h1 h2
    exact hgo width 200 hw (hhd hq) h1 h2 (by decide) (by decide)

/-- C7 at a request without query parameters: the thumbnail is resized to 200 by 200. -/
theorem C7_absent_dimension_defaults_to_200_witness :
    cfSecret (sampleEvent (some "/a.png") none) = sampleConfig.SECRET_KEY ∧
    objectPath (sampleEvent (some "/a.png") none) ≠ "" ∧
    handler sampleConfig
        (servingWorld { ContentLength := some 3, Body := .chunk [1, 2, 3] .done }
          { format := some "png", hasAlpha := false } [9, 9, 9])
        (sampleEvent (some "/a.png") none) =
      settle (fetchAndTransform sampleConfig
        (servingWorld { ContentLength := some 3, Body := .chunk [1, 2, 3] .done }
          { format := some "png", hasAlpha := false } [9, 9, 9])
        (sampleEvent (some "/a.png") none)
        (objectPath (sampleEvent (some "/a.png") none)) 200 200) ∧
    Effect.encode [1, 2, 3] [SharpOp.resize 200 200 "inside" false, SharpOp.png 85 8] ∈
      (handler sampleConfig
        (servingWorld { ContentLength := some 3, Body := .chunk [1, 2, 3] .done }
          { format := some "png", hasAlpha := false } [9, 9, 9])
        (sampleEvent (some "/a.png") none)).2 :=
  ⟨by decide, by decide,
    ((C7_absent_dimension_defaults_to_200 sampleConfig
      (servingWorld { ContentLength := some 3, Body := .chunk [1, 2, 3] .done }
        { format := some "png", hasAlpha := false } [9, 9, 9])
      (sampleEvent (some "/a.png") none) (by decide) (by decide)).2.2.1 rfl).2.2,
    by decide⟩

/-- C8: for a request that passes authentication, path and dimension validation and
whose fetch succeeds with a reported content length above 20 MiB, the handler answers
413 "Image file too large"; the fetch is the only call it made, so the body was not read
and nothing was decoded or encoded. -/
theorem C8_size_guard (cfg : Config) (world : World) (event : Event)
    (width height : Int) (s3Response : GetObjectOutput) (contentLength : Nat)
    (hauth : cfSecret event = cfg.SECRET_KEY) (hpath : objectPath event ≠ "")
    (hw : parsedWidth event = some width) (hh : parsedHeight event = some height)
    (hrange : 1 ≤ width ∧ width ≤ 4096 ∧ 1 ≤ height ∧ height ≤ 4096)
    (hs : world.send { Bucket := cfg.BUCKET_NAME, Key := objectPath event } =
      .ok s3Response)
    (hlen : s3Response.ContentLength = some contentLength)
    (hbig : contentLength > 20 * 1024 * 1024) :
    handler cfg world event =
      ({ statusCode := 413, headers := none,
         body := "\x7b\"error\":\"Image file too large\"\x7d",
         isBase64Encoded := none },
       [Effect.send { Bucket := cfg.BUCKET_NAME, Key := objectPath event }]) ∧
    Effect.readBody ∉ (handler cfg world event).2 ∧
    (∀ imageBuffer, Effect.decode imageBuffer ∉ (handler cfg world event).2) ∧
    (∀ imageBuffer ops, Effect.encode imageBuffer ops ∉ (handler cfg world event).2) := by
  have hnot : ¬ (width ≤ 0 ∨ height ≤ 0 ∨ width > MAX_DIMENSION ∨
      height > MAX_DIMENSION) := by
    simp only [MAX_DIMENSION]; omega
  have hv := handler_validated cfg world event width height hauth hpath hw hh hnot
  have hgt : s3Response.ContentLength.getD 0 > MAX_FILE_SIZE := by
    rw [hlen]; simpa [MAX_FILE_SIZE] using hbig
  have hf := fetch_too_large cfg world event (objectPath event) width height s3Response
    hs hgt
  have heq : handler cfg world event =
      (errorResponse 413 "Image file too large",
       [Effect.send { Bucket := cfg.BUCKET_NAME, Key := objectPath event }]) := by
    rw [hv, hf]; rfl
  refine ⟨by rw [heq]; rfl, ?_, ?_, ?_⟩
  · rw [heq]; simp
  · intro imageBuffer; rw [heq]; simp
  · intro imageBuffer ops; rw [heq]; simp

/-- C8 at a source object reported with a content length of 25 MiB. -/
theorem C8_size_guard_witness :
    (26214400 : Nat) = 25 * 1024 * 1024 ∧
    handler sampleConfig
        (servingWorld { ContentLength := some 26214400, Body := .chunk [1, 2, 3] .done }
          { format := some "png", hasAlpha := false } [9, 9, 9])
        (sampleEvent (some "/a.png") none) =
      ({ statusCode := 413, headers := none,
         body := "\x7b\"error\":\"Image file too large\"\x7d",
         isBase64Encoded := none },
       [Effect.send { Bucket := some "images", Key := "a.png" }]) :=
  ⟨by decide,
    (C8_size_guard sampleConfig
      (servingWorld { ContentLength := some 26214400, Body := .chunk [1, 2, 3] .done }
        { format := some "png", hasAlpha := false } [9, 9, 9])
      (sampleEvent (some "/a.png") none) 200 200
      { ContentLength := some 26214400, Body := .chunk [1, 2, 3] .done } 26214400
      (by decide) (by decide) (by decide) (by decide)
      ⟨by decide, by decide, by decide, by decide⟩ rfl rfl (by decide)).1⟩

/-- C9 as stated fails: a storage response that reports no content length, or one that
reports 3 bytes, and streams 20 MiB + 1 bytes passes the size guard; the handler buffers
the whole body and hands the decoder a buffer longer than 20 MiB. -/
theorem C9_oversized_buffer_is_decoded :
    (List.replicate (20 * 1024 * 1024 + 1) 0).length > 20 * 1024 * 1024 ∧
    Effect.decode (List.replicate (20 * 1024 * 1024 + 1) 0) ∈
      (handler sampleConfig
        (servingWorld
          { ContentLength := none,
            Body := .chunk (List.replicate (20 * 1024 * 1024 + 1) 0) .done }
          { format := some "png", hasAlpha := false } [9, 9, 9])
        (sampleEvent (some "/a.png") none)).2 ∧
    Effect.decode (List.replicate (20 * 1024 * 1024 + 1) 0) ∈
      (handler sampleConfig
        (servingWorld
          { ContentLength := some 3,
            Body := .chunk (List.replicate (20 * 1024 * 1024 + 1) 0) .done }
          { format := some "png", hasAlpha := false } [9, 9, 9])
        (sampleEvent (some "/a.png") none)).2 := by
  refine ⟨?_, ?_, ?_⟩
  · rw [List.length_replicate]
    exact Nat.lt_succ_self _
  · rw [handler_single_chunk none _ (by decide)]
    exact List.mem_cons_of_mem _ (List.mem_cons_of_mem _ (List.mem_cons_self _ _))
  · rw [handler_single_chunk (some 3) _ (by decide)]
    exact List.mem_cons_of_mem _ (List.mem_cons_of_mem _ (List.mem_cons_self _ _))

/-- C9, amended: when the storage response to the handler's fetch reports a content
length and streams no more bytes than it reports, every buffer the handler hands to the
image library, for decoding or for the transform, is at most 20 MiB long. -/
theorem C9_buffer_within_reported_length (cfg : Config) (world : World) (event : Event)
    (imageBuffer : Bytes)
    (hhonest : ∀ s3Response,
      world.send { Bucket := cfg.BUCKET_NAME, Key := objectPath event } = .ok s3Response →
      ∃ n, s3Response.ContentLength = some n ∧ streamedBytes s3Response.Body ≤ n)
    (hused : Effect.decode imageBuffer ∈ (handler cfg world event).2 ∨
      ∃ ops, Effect.encode imageBuffer ops ∈ (handler cfg world event).2) :
    imageBuffer.length ≤ 20 * 1024 * 1024 := by
  have key : ∀ effect ∈ (handler cfg world event).2,
      (effect = .decode imageBuffer ∨ ∃ ops, effect = .encode imageBuffer ops) →
      imageBuffer.length ≤ 20 * 1024 * 1024 := by
    intro effect hmem heff
    rcases handler_inv cfg world event with
      ⟨_, h⟩ | ⟨_, _, h⟩ | ⟨_, _, _, h⟩ | ⟨_, _, _, _, _, _, _, h⟩ |
      ⟨_, _, width, height, _, _, _, h⟩
    · rw [h] at hmem; simp at hmem
    · rw [h] at hmem; simp at hmem
    · rw [h] at hmem; simp at hmem
    · rw [h] at hmem; simp at hmem
    · rw [h] at hmem
      have hbuf : ∃ s3Response,
          world.send { Bucket := cfg.BUCKET_NAME, Key := objectPath event } =
            .ok s3Response ∧
          ¬ s3Response.ContentLength.getD 0 > MAX_FILE_SIZE ∧
          streamToBuffer s3Response.Body = .ok imageBuffer := by
        rcases (settle_fetchAndTransform_effects cfg world event (objectPath event)
            width height).2 _ hmem with
          he | he | ⟨_, he⟩ | ⟨s3Response, buffer, hs, hlen, hb, he | ⟨_, _, he⟩⟩
        · subst he; rcases heff with h1 | ⟨_, h1⟩ <;> cases h1
        · subst he; rcases heff with h1 | ⟨_, h1⟩ <;> cases h1
        · subst he; rcases heff with h1 | ⟨_, h1⟩ <;> cases h1
        · subst he
          rcases heff with h1 | ⟨_, h1⟩
          · cases h1; exact ⟨s3Response, hs, hlen, hb⟩
          · cases h1
        · subst he
          rcases heff with h1 | ⟨_, h1⟩
          · cases h1
          · cases h1; exact ⟨s3Response, hs, hlen, hb⟩
      obtain ⟨s3Response, hs, hlen, hb⟩ := hbuf
      obtain ⟨n, hn, hle⟩ := hhonest s3Response hs
      rw [hn] at hlen
      simp only [Option.getD_some, MAX_FILE_SIZE, gt_iff_lt, not_lt] at hlen
      rw [streamToBuffer_length _ _ hb]
      omega
  rcases hused with h | ⟨ops, h⟩
  · exact key _ h (Or.inl rfl)
  · exact key _ h (Or.inr ⟨ops, rfl⟩)

/-- C9, amended, at a three-byte object reported as three bytes long. -/
theorem C9_buffer_within_reported_length_witness :
    Effect.decode [1, 2, 3] ∈
      (handler sampleConfig
        (servingWorld { ContentLength := some 3, Body := .chunk [1, 2, 3] .done }
          { format := some "png", hasAlpha := false } [9, 9, 9])
        (sampleEvent (some "/a.png") none)).2 ∧
    ([1, 2, 3] : Bytes).length ≤ 20 * 1024 * 1024 :=
  ⟨by decide,
    C9_buffer_within_reported_length sampleConfig
      (servingWorld { ContentLength := some 3, Body := .chunk [1, 2, 3] .done }
        { format := some "png", hasAlpha := false } [9, 9, 9])
      (sampleEvent (some "/a.png") none) [1, 2, 3]
      (fun s3Response hs => by
        cases hs
        exact ⟨3, rfl, by decide⟩)
      (Or.inl (by decide))⟩

/-- C10: format resolution is a total function whose value, for every `format`
parameter (any string, or absent) and every detected source format (any string, or
none), is one of "jpeg", "png" and "webp", hence never "jpg"; with the parameter absent
and a detected format that is none or is not one of "jpeg", "jpg", "png", "webp", the
value is "jpeg". -/
theorem C10_resolved_format_in_whitelist (format detected : Option String) :
    (resolveOutputFormat format detected = "jpeg" ∨
      resolveOutputFormat format detected = "png" ∨
      resolveOutputFormat format detected = "webp") ∧
    resolveOutputFormat format detected ≠ "jpg" ∧
    ((∀ d, detected = some d → d ∉ ["jpeg", "jpg", "png", "webp"]) →
      resolveOutputFormat none detected = "jpeg") := by
  have hcand : ∀ c : Option String,
      (match c with
        | some f => if supportedFormats.contains f then f else "jpeg"
        | none => "jpeg") = "jpeg" ∨
      (match c with
        | some f => if supportedFormats.contains f then f else "jpeg"
        | none => "jpeg") = "jpg" ∨
      (match c with
        | some f => if supportedFormats.contains f then f else "jpeg"
        | none => "jpeg") = "png" ∨
      (match c with
        | some f => if supportedFormats.contains f then f else "jpeg"
        | none => "jpeg") = "webp" := by
    intro c
    cases c with
    | none => exact Or.inl rfl
    | some c =>
      by_cases hin : supportedFormats.contains c = true
      · have hmem : c = "jpeg" ∨ c = "jpg" ∨ c = "png" ∨ c = "webp" := by
          simpa [supportedFormats] using hin
        simp only [hin, if_true]
        exact hmem
      · simp only [hin]
        exact Or.inl rfl
  have hmain : ∀ f d : Option String,
      resolveOutputFormat f d = "jpeg" ∨ resolveOutputFormat f d = "png" ∨
        resolveOutputFormat f d = "webp" := by
    intro f d
    have hstep : resolveOutputFormat f d =
        if (match jsOr (f.map toLowerCase) d with
            | some f => if supportedFormats.contains f then f else "jpeg"
            | none => "jpeg") = "jpg" then "jpeg"
        else (match jsOr (f.map toLowerCase) d with
            | some f => if supportedFormats.contains f then f else "jpeg"
            | none => "jpeg") := rfl
    rw [hstep]
    rcases hcand (jsOr (f.map toLowerCase) d) with h | h | h | h <;> rw [h] <;> decide
  refine ⟨hmain _ _, ?_, ?_⟩
  · rcases hmain format detected with h | h | h <;> rw [h] <;> decide
  · intro hout
    cases detected with
    | none => rfl
    | some d =>
      have hd : supportedFormats.contains d = false := by
        have := hout d rfl
        simpa [supportedFormats] using this
      by_cases he : d = ""
      · subst he; decide
      · have hj : jsOr (Option.map toLowerCase none) (some d) = some d := by
          simp [jsOr, truthy]
        have hstep : resolveOutputFormat none (some d) =
            if (match jsOr (Option.map toLowerCase none) (some d) with
                | some f => if supportedFormats.contains f then f else "jpeg"
                | none => "jpeg") = "jpg" then "jpeg"
            else (match jsOr (Option.map toLowerCase none) (some d) with
                | some f => if supportedFormats.contains f then f else "jpeg"
                | none => "jpeg") := rfl
        rw [hstep, hj]
        simp only [hd, Bool.false_eq_true, if_false]
        decide

/-- C10 at an absent `format` parameter and a GIF source. -/
theorem C10_resolved_format_in_whitelist_witness :
    resolveOutputFormat none (some "gif") = "jpeg" :=
  (C10_resolved_format_in_whitelist none (some "gif")).2.2
    (fun d hd => by cases hd; decide)

/-! ## Format resolution in closed form -/

/-- Lines 76-84 in closed form: the result is "png" or "webp" when the candidate, the
lower-cased parameter or else the detected format, is that word, and "jpeg" otherwise. -/
theorem resolveOutputFormat_closed (format detected : Option String) :
    resolveOutputFormat format detected =
      if jsOr (format.map toLowerCase) detected = some "png" then "png"
      else if jsOr (format.map toLowerCase) detected = some "webp" then "webp"
      else "jpeg" := by
  have hstep : resolveOutputFormat format detected =
      if (match jsOr (format.map toLowerCase) detected with
          | some f => if supportedFormats.contains f then f else "jpeg"
          | none => "jpeg") = "jpg" then "jpeg"
      else (match jsOr (format.map toLowerCase) detected with
          | some f => if supportedFormats.contains f then f else "jpeg"
          | none => "jpeg") := rfl
  rw [hstep]
  cases jsOr (format.map toLowerCase) detected with
  | none => decide
  | some c =>
    by_cases hin : supportedFormats.contains c = true
    · have hmem : c = "jpeg" ∨ c = "jpg" ∨ c = "png" ∨ c = "webp" := by
        simpa [supportedFormats] using hin
      rcases hmem with h | h | h | h <;> subst h <;> decide
    · have hmem : ¬ (c = "jpeg" ∨ c = "jpg" ∨ c = "png" ∨ c = "webp") := by
        simpa [supportedFormats] using hin
      have h1 : c ≠ "png" := fun h => hmem (Or.inr (Or.inr (Or.inl h)))
      have h2 : c ≠ "webp" := fun h => hmem (Or.inr (Or.inr (Or.inr h)))
      simp only [hin, Bool.false_eq_true, if_false, Option.some.injEq, h1, h2]
      decide

/-- Lower-casing keeps a non-empty string non-empty. -/
theorem toLowerCase_ne_empty (s : String) (h : s ≠ "") : toLowerCase s ≠ "" := by
  rcases s with ⟨l⟩
  cases l with
  | nil => exact absurd rfl h
  | cons c rest => simp [toLowerCase, String.ext_iff]

/-- The candidate of a present, non-empty `format` parameter is its lower-cased form. -/
theorem candidate_of_present (f : String) (detected : Option String) (h : f ≠ "") :
    jsOr ((some f).map toLowerCase) detected = some (toLowerCase f) := by
  have hne := toLowerCase_ne_empty f h
  simp [jsOr, truthy, hne]

/-- C11 as stated fails: with the `format` parameter present and empty the detected
source format decides; the same request resolves to "png" on a PNG source and to "webp"
on a WebP source, where the claim gives "jpeg", and the handler answers 200 with
Content-Type image/png. -/
theorem C11_empty_format_follows_source :
    toLowerCase "" = "" ∧
    resolveOutputFormat (some "") (some "png") = "png" ∧
    resolveOutputFormat (some "") (some "webp") = "webp" ∧
    handler sampleConfig
        (servingWorld { ContentLength := some 3, Body := .chunk [1, 2, 3] .done }
          { format := some "png", hasAlpha := false } [9, 9, 9])
        (sampleEvent (some "/a.png") (some [("format", "")])) =
      ({ statusCode := 200,
         headers := some [("Content-Type", "image/png"),
                          ("Cache-Control", "public, max-age=86400")],
         body := "CQkJ", isBase64Encoded := some true },
       [Effect.send { Bucket := some "images", Key := "a.png" }, Effect.readBody,
        Effect.decode [1, 2, 3],
        Effect.encode [1, 2, 3]
          [SharpOp.resize 200 200 "inside" false, SharpOp.png 85 8]]) := by
  decide

/-- C11, amended: a `format` parameter that is present and not empty decides the output
format alone: the result is "png" if the lower-cased parameter is "png", "webp" if it is
"webp" and "jpeg" otherwise, whatever the detected source format.  When the parameter is
absent, and likewise when it is empty, the detected source format is the candidate. -/
theorem C11_explicit_format_decides (f : String) (detected other : Option String)
    (hne : f ≠ "") :
    resolveOutputFormat (some f) detected =
      (if toLowerCase f = "png" then "png"
       else if toLowerCase f = "webp" then "webp" else "jpeg") ∧
    resolveOutputFormat (some f) detected = resolveOutputFormat (some f) other ∧
    resolveOutputFormat none detected =
      (if detected = some "png" then "png"
       else if detected = some "webp" then "webp" else "jpeg") ∧
    resolveOutputFormat (some "") detected = resolveOutputFormat none detected ∧
    toLowerCase "PNG" = "png" ∧ toLowerCase "JPG" = "jpg" := by
  have hform : ∀ d : Option String, resolveOutputFormat (some f) d =
      (if toLowerCase f = "png" then "png"
       else if toLowerCase f = "webp" then "webp" else "jpeg") := by
    intro d
    rw [resolveOutputFormat_closed, candidate_of_present f d hne]
    simp only [Option.some.injEq]
  have hnone : ∀ d : Option String, jsOr ((none : Option String).map toLowerCase) d = d := by
    intro d; simp [jsOr, truthy]
  have hempty : ∀ d : Option String, jsOr ((some "").map toLowerCase) d = d := by
    intro d
    have : toLowerCase "" = "" := by decide
    simp [jsOr, truthy, this]
  refine ⟨hform detected, ?_, ?_, ?_, by decide, by decide⟩
  · rw [hform detected, hform other]
  · rw [resolveOutputFormat_closed, hnone]
  · rw [resolveOutputFormat_closed, resolveOutputFormat_closed, hnone, hempty]

/-- C11, amended, at `format=WEBP` on a JPEG source and at `format=JPG` on a PNG
source. -/
theorem C11_explicit_format_decides_witness :
    resolveOutputFormat (some "WEBP") (some "jpeg") = "webp" ∧
    resolveOutputFormat (some "JPG") (some "png") = "jpeg" := by
  have h1 := (C11_explicit_format_decides "WEBP" (some "jpeg") none (by decide)).1
  have h2 := (C11_explicit_format_decides "JPG" (some "png") none (by decide)).1
  refine ⟨?_, ?_⟩
  · rw [h1]; decide
  · rw [h2]; decide

/-! ## Failures of the fetch -/

/-- The call `s.includes(sub)` holds exactly when `sub` is a contiguous run of `s`. -/
theorem includes_iff_contiguous (s sub : String) :
    includes s sub = true ↔ sub.data <:+: s.data := by
  unfold includes
  induction s.data with
  | nil => simp [includesChars, List.isEmpty_iff]
  | cons c cs ih =>
    simp only [includesChars, Bool.or_eq_true, List.isPrefixOf_iff_prefix, ih,
      List.infix_cons_iff]

/-- A validated request whose fetch throws is answered by the `catch` block; the fetch
and the log are the only calls. -/
theorem handler_fetch_failure (cfg : Config) (world : World) (event : Event)
    (width height : Int) (error : JsError)
    (hauth : cfSecret event = cfg.SECRET_KEY) (hpath : objectPath event ≠ "")
    (hw : parsedWidth event = some width) (hh : parsedHeight event = some height)
    (hrange : 1 ≤ width ∧ width ≤ 4096 ∧ 1 ≤ height ∧ height ≤ 4096)
    (hs : world.send { Bucket := cfg.BUCKET_NAME, Key := objectPath event } =
      .error error) :
    handler cfg world event =
      (handlerCatch error,
       [Effect.send { Bucket := cfg.BUCKET_NAME, Key := objectPath event },
        Effect.consoleError error]) := by
  have hnot : ¬ (width ≤ 0 ∨ height ≤ 0 ∨ width > MAX_DIMENSION ∨
      height > MAX_DIMENSION) := by
    simp only [MAX_DIMENSION]; omega
  rw [handler_validated cfg world event width height hauth hpath hw hh hnot,
    fetch_send_error cfg world event (objectPath event) width height error hs]
  rfl

/-- C12: for a request that passes authentication, path and dimension validation, a
fetch that fails as not-found (name "NoSuchKey" or HTTP status 404) is answered
404 "Image not found", and a fetch that fails as access-denied (name "AccessDenied" or
HTTP status 403) is answered 403 "Access denied".  The two are kinds of failure, and a
failure is of one kind: one that passes the not-found test is a not-found failure. -/
theorem C12_storage_failure_mapping (cfg : Config) (world : World) (event : Event)
    (width height : Int) (error : JsError)
    (hauth : cfSecret event = cfg.SECRET_KEY) (hpath : objectPath event ≠ "")
    (hw : parsedWidth event = some width) (hh : parsedHeight event = some height)
    (hrange : 1 ≤ width ∧ width ≤ 4096 ∧ 1 ≤ height ∧ height ≤ 4096)
    (hs : world.send { Bucket := cfg.BUCKET_NAME, Key := objectPath event } =
      .error error) :
    ((error.name = some "NoSuchKey" ∨ error.httpStatusCode = some 404) →
      handler cfg world event =
        ({ statusCode := 404, headers := none,
           body := "\x7b\"error\":\"Image not found\"\x7d", isBase64Encoded := none },
         [Effect.send { Bucket := cfg.BUCKET_NAME, Key := objectPath event },
          Effect.consoleError error])) ∧
    (¬ (error.name = some "NoSuchKey" ∨ error.httpStatusCode = some 404) →
      (error.name = some "AccessDenied" ∨ error.httpStatusCode = some 403) →
      handler cfg world event =
        ({ statusCode := 403, headers := none,
           body := "\x7b\"error\":\"Access denied\"\x7d", isBase64Encoded := none },
         [Effect.send { Bucket := cfg.BUCKET_NAME, Key := objectPath event },
          Effect.consoleError error])) := by
  have h := handler_fetch_failure cfg world event width height error hauth hpath hw hh
    hrange hs
  constructor
  · intro hnf
    rw [h]
    have hc : handlerCatch error = errorResponse 404 "Image not found" := by
      unfold handlerCatch; rw [if_pos hnf]
    rw [hc]; rfl
  · intro hnf had
    rw [h]
    have hc : handlerCatch error = errorResponse 403 "Access denied" := by
      unfold handlerCatch; rw [if_neg hnf, if_pos had]
    rw [hc]; rfl

/-- C12 at a missing key (NoSuchKey, 404) and at a denied one (AccessDenied, 403). -/
theorem C12_storage_failure_mapping_witness :
    handler sampleConfig emptyBucket (sampleEvent (some "/a.png") none) =
      ({ statusCode := 404, headers := none,
         body := "\x7b\"error\":\"Image not found\"\x7d", isBase64Encoded := none },
       [Effect.send { Bucket := some "images", Key := "a.png" },
        Effect.consoleError { name := some "NoSuchKey", httpStatusCode := some 404,
                              message := some "The specified key does not exist." }]) ∧
    handler sampleConfig
        (failingBucket { name := some "AccessDenied", httpStatusCode := some 403,
                         message := some "Access Denied" })
        (sampleEvent (some "/a.png") none) =
      ({ statusCode := 403, headers := none,
         body := "\x7b\"error\":\"Access denied\"\x7d", isBase64Encoded := none },
       [Effect.send { Bucket := some "images", Key := "a.png" },
        Effect.consoleError { name := some "AccessDenied", httpStatusCode := some 403,
                              message := some "Access Denied" }]) :=
  ⟨(C12_storage_failure_mapping sampleConfig emptyBucket
      (sampleEvent (some "/a.png") none) 200 200
      { name := some "NoSuchKey", httpStatusCode := some 404,
        message := some "The specified key does not exist." }
      (by decide) (by decide) (by decide) (by decide)
      ⟨by decide, by decide, by decide, by decide⟩ rfl).1 (Or.inl rfl),
   (C12_storage_failure_mapping sampleConfig
      (failingBucket { name := some "AccessDenied", httpStatusCode := some 403,
                       message := some "Access Denied" })
      (sampleEvent (some "/a.png") none) 200 200
      { name := some "AccessDenied", httpStatusCode := some 403,
        message := some "Access Denied" }
      (by decide) (by decide) (by decide) (by decide)
      ⟨by decide, by decide, by decide, by decide⟩ rfl).2 (by decide) (Or.inl rfl)⟩

/-- C13 as stated fails: a fetch failure that is neither not-found nor access-denied and
whose message contains "Input buffer" is answered 400 "Invalid image format", not 500. -/
theorem C13_fetch_failure_message_sniffed :
    handler sampleConfig
        (failingBucket { name := some "TimeoutError", httpStatusCode := none,
                         message := some "Input buffer exhausted" })
        (sampleEvent (some "/a.png") none) =
      ({ statusCode := 400, headers := none,
         body := "\x7b\"error\":\"Invalid image format\"\x7d", isBase64Encoded := none },
       [Effect.send { Bucket := some "images", Key := "a.png" },
        Effect.consoleError { name := some "TimeoutError", httpStatusCode := none,
                              message := some "Input buffer exhausted" }]) := by
  decide

/-- C13, amended: for a request that passes validation and a fetch failure that is
neither not-found nor access-denied, the handler answers 500 "Internal server error"
when the failure has no message or a message that does not contain "Input buffer", and
400 "Invalid image format" when its message contains "Input buffer". -/
theorem C13_other_fetch_failure (cfg : Config) (world : World) (event : Event)
    (width height : Int) (error : JsError)
    (hauth : cfSecret event = cfg.SECRET_KEY) (hpath : objectPath event ≠ "")
    (hw : parsedWidth event = some width) (hh : parsedHeight event = some height)
    (hrange : 1 ≤ width ∧ width ≤ 4096 ∧ 1 ≤ height ∧ height ≤ 4096)
    (hs : world.send { Bucket := cfg.BUCKET_NAME, Key := objectPath event } =
      .error error)
    (hnf : ¬ (error.name = some "NoSuchKey" ∨ error.httpStatusCode = some 404))
    (had : ¬ (error.name = some "AccessDenied" ∨ error.httpStatusCode = some 403)) :
    ((∀ message, error.message = some message →
        ¬ "Input buffer".data <:+: message.data) →
      handler cfg world event =
        ({ statusCode := 500, headers := none,
           body := "\x7b\"error\":\"Internal server error\"\x7d",
           isBase64Encoded := none },
         [Effect.send { Bucket := cfg.BUCKET_NAME, Key := objectPath event },
          Effect.consoleError error])) ∧
    ((∃ message, error.message = some message ∧
        "Input buffer".data <:+: message.data) →
      handler cfg world event =
        ({ statusCode := 400, headers := none,
           body := "\x7b\"error\":\"Invalid image format\"\x7d",
           isBase64Encoded := none },
         [Effect.send { Bucket := cfg.BUCKET_NAME, Key := objectPath event },
          Effect.consoleError error])) := by
  have h := handler_fetch_failure cfg world event width height error hauth hpath hw hh
    hrange hs
  constructor
  · intro hmsg
    rw [h]
    have hc : handlerCatch error = errorResponse 500 "Internal server error" := by
      unfold handlerCatch
      rw [if_neg hnf, if_neg had]
      cases hm : error.message with
      | none => simp
      | some message =>
        have hno : includes message "Input buffer" = false := by
          have := hmsg message hm
          rw [← includes_iff_contiguous] at this
          simpa using this
        simp [hno]
    rw [hc]; rfl
  · rintro ⟨message, hm, hin⟩
    rw [h]
    have hc : handlerCatch error = errorResponse 400 "Invalid image format" := by
      unfold handlerCatch
      rw [if_neg hnf, if_neg had, hm]
      have hyes : includes message "Input buffer" = true :=
        (includes_iff_contiguous message "Input buffer").2 hin
      have hne : message ≠ "" := by
        intro he
        subst he
        exact absurd hyes (by decide)
      simp [hyes, hne]
    rw [hc]; rfl

/-- C13, amended, at a fetch that times out. -/
theorem C13_other_fetch_failure_witness :
    handler sampleConfig
        (failingBucket { name := some "TimeoutError", httpStatusCode := none,
                         message := some "socket hang up" })
        (sampleEvent (some "/a.png") none) =
      ({ statusCode := 500, headers := none,
         body := "\x7b\"error\":\"Internal server error\"\x7d",
         isBase64Encoded := none },
       [Effect.send { Bucket := some "images", Key := "a.png" },
        Effect.consoleError { name := some "TimeoutError", httpStatusCode := none,
                              message := some "socket hang up" }]) :=
  (C13_other_fetch_failure sampleConfig
    (failingBucket { name := some "TimeoutError", httpStatusCode := none,
                     message := some "socket hang up" })
    (sampleEvent (some "/a.png") none) 200 200
    { name := some "TimeoutError", httpStatusCode := none,
      message := some "socket hang up" }
    (by decide) (by decide) (by decide) (by decide)
    ⟨by decide, by decide, by decide, by decide⟩ rfl (by decide) (by decide)).1
    (fun message hm => by
      cases hm
      rw [← includes_iff_contiguous]
      decide)

/-! ## Success and the response set -/

/-- The `catch` block never answers 200. -/
theorem handlerCatch_statusCode_ne (error : JsError) :
    (handlerCatch error).statusCode ≠ 200 := by
  rcases handlerCatch_cases error with h | h | h | h <;> rw [h] <;> decide

/-- A 200 answer of the validated part comes from the one path on which the fetch, the
size guard, the body read, the decode and the encode all succeeded. -/
theorem settle_fetchAndTransform_success_inv (cfg : Config) (world : World)
    (event : Event) (path : String) (width height : Int)
    (h200 : (settle (fetchAndTransform cfg world event path width height)).1.statusCode
      = 200) :
    ∃ s3Response imageBuffer metadata outputBuffer,
      world.send { Bucket := cfg.BUCKET_NAME, Key := path } = .ok s3Response ∧
      ¬ s3Response.ContentLength.getD 0 > MAX_FILE_SIZE ∧
      streamToBuffer s3Response.Body = .ok imageBuffer ∧
      world.metadata imageBuffer = .ok metadata ∧
      world.toBuffer imageBuffer
        (sharpOps width height
          (resolveOutputFormat (getProp (queryParams event) "format") metadata.format)
          metadata.hasAlpha) = .ok outputBuffer ∧
      settle (fetchAndTransform cfg world event path width height) =
        (successResponse
            (resolveOutputFormat (getProp (queryParams event) "format") metadata.format)
            outputBuffer,
          [.send { Bucket := cfg.BUCKET_NAME, Key := path }, .readBody,
            .decode imageBuffer,
            .encode imageBuffer (sharpOps width height
              (resolveOutputFormat (getProp (queryParams event) "format") metadata.format)
              metadata.hasAlpha)]) := by
  rcases fetchAndTransform_inv cfg world event path width height with
    ⟨error, _, h⟩ | ⟨s3Response, _, _, h⟩ | ⟨s3Response, error, _, _, _, h⟩ |
    ⟨s3Response, imageBuffer, error, _, _, _, _, h⟩ |
    ⟨s3Response, imageBuffer, metadata, error, _, _, _, _, _, h⟩ |
    ⟨s3Response, imageBuffer, metadata, outputBuffer, hs, hlen, hb, hm, ht, h⟩
  · rw [h] at h200; exact absurd h200 (handlerCatch_statusCode_ne error)
  · rw [h] at h200; simp [settle, errorResponse] at h200
  · rw [h] at h200; exact absurd h200 (handlerCatch_statusCode_ne error)
  · rw [h] at h200; exact absurd h200 (handlerCatch_statusCode_ne error)
  · rw [h] at h200; exact absurd h200 (handlerCatch_statusCode_ne error)
  · exact ⟨s3Response, imageBuffer, metadata, outputBuffer, hs, hlen, hb, hm, ht, by
      rw [h]; rfl⟩

/-- A 200 answer of the handler: the request passed every check, and every collaborator
call succeeded. -/
theorem handler_success_inv (cfg : Config) (world : World) (event : Event)
    (h200 : (handler cfg world event).1.statusCode = 200) :
    cfSecret event = cfg.SECRET_KEY ∧ objectPath event ≠ "" ∧
    ∃ width height : Int,
      parsedWidth event = some width ∧ parsedHeight event = some height ∧
      1 ≤ width ∧ width ≤ 4096 ∧ 1 ≤ height ∧ height ≤ 4096 ∧
      ∃ s3Response imageBuffer metadata outputBuffer,
        world.send { Bucket := cfg.BUCKET_NAME, Key := objectPath event } =
          .ok s3Response ∧
        ¬ s3Response.ContentLength.getD 0 > MAX_FILE_SIZE ∧
        streamToBuffer s3Response.Body = .ok imageBuffer ∧
        world.metadata imageBuffer = .ok metadata ∧
        world.toBuffer imageBuffer
          (sharpOps width height
            (resolveOutputFormat (getProp (queryParams event) "format") metadata.format)
            metadata.hasAlpha) = .ok outputBuffer ∧
        handler cfg world event =
          (successResponse
              (resolveOutputFormat (getProp (queryParams event) "format") metadata.format)
              outputBuffer,
            [.send { Bucket := cfg.BUCKET_NAME, Key := objectPath event }, .readBody,
              .decode imageBuffer,
              .encode imageBuffer (sharpOps width height
                (resolveOutputFormat (getProp (queryParams event) "format")
                  metadata.format)
                metadata.hasAlpha)]) := by
  rcases handler_inv cfg world event with
    ⟨_, h⟩ | ⟨_, _, h⟩ | ⟨_, _, _, h⟩ | ⟨_, _, _, _, _, _, _, h⟩ |
    ⟨hauth, hpath, width, height, hw, hh, hrange, h⟩
  · rw [h] at h200; exact absurd h200 (by decide)
  · rw [h] at h200; exact absurd h200 (by decide)
  · rw [h] at h200; exact absurd h200 (by decide)
  · rw [h] at h200; exact absurd h200 (by decide)
  · rw [h] at h200
    obtain ⟨s3Response, imageBuffer, metadata, outputBuffer, hs, hlen, hb, hm, ht, hf⟩ :=
      settle_fetchAndTransform_success_inv cfg world event _ width height h200
    simp only [MAX_DIMENSION] at hrange
    exact ⟨hauth, hpath, width, height, hw, hh, by omega, by omega, by omega, by omega,
      s3Response, imageBuffer, metadata, outputBuffer, hs, hlen, hb, hm, ht, by
        rw [h, hf]⟩

/-- The resolved format is one of the three encodable ones. -/
theorem resolveOutputFormat_mem (format detected : Option String) :
    resolveOutputFormat format detected ∈ ["jpeg", "png", "webp"] := by
  rw [resolveOutputFormat_closed]
  split_ifs <;> decide

/-- On collaborators that throw error objects the handler is total: every error thrown
inside the `try` block is caught, logged and answered, and the response either has
status 200, and is then the success response for one of the formats jpeg, png, webp, or
is one of nine fixed pairs of a status and a message. -/
theorem handler_response_set (cfg : Config) (world : World)
    (event : Event) :
    (((handler cfg world event).1.statusCode = 200 ∧
        ∃ outputFormat ∈ ["jpeg", "png", "webp"], ∃ outputBuffer,
          (handler cfg world event).1 = successResponse outputFormat outputBuffer) ∨
      ∃ pair ∈ [((403 : Nat), "Forbidden"), (400, "Missing image path"),
          (400, "Invalid width or height parameter"),
          (400, "Width and height must be between 1 and 4096"),
          (413, "Image file too large"), (404, "Image not found"),
          (403, "Access denied"), (400, "Invalid image format"),
          (500, "Internal server error")],
        (handler cfg world event).1 =
          { statusCode := pair.1, headers := none,
            body := "\x7b\"error\":\"" ++ pair.2 ++ "\"\x7d",
            isBase64Encoded := none }) ∧
    (∀ error effects, handlerTry cfg world event = (.error error, effects) →
      handler cfg world event =
        (handlerCatch error, effects ++ [Effect.consoleError error])) := by
  constructor
  · by_cases h200 : (handler cfg world event).1.statusCode = 200
    · left
      refine ⟨h200, ?_⟩
      obtain ⟨_, _, _, _, _, _, _, _, _, _, _, _, metadata, outputBuffer, _, _, _, _, _, h⟩ :=
        handler_success_inv cfg world event h200
      exact ⟨_, resolveOutputFormat_mem _ _, outputBuffer, by rw [h]⟩
    · right
      have hall : (handler cfg world event).1 = errorResponse 403 "Forbidden" ∨
          (handler cfg world event).1 = errorResponse 400 "Missing image path" ∨
          (handler cfg world event).1 =
            errorResponse 400 "Invalid width or height parameter" ∨
          (handler cfg world event).1 = errorResponse 400
            ("Width and height must be between 1 and " ++ toString MAX_DIMENSION) ∨
          (handler cfg world event).1.statusCode = 200 ∨
          (handler cfg world event).1 = errorResponse 413 "Image file too large" ∨
          (handler cfg world event).1 = errorResponse 404 "Image not found" ∨
          (handler cfg world event).1 = errorResponse 403 "Access denied" ∨
          (handler cfg world event).1 = errorResponse 400 "Invalid image format" ∨
          (handler cfg world event).1 = errorResponse 500 "Internal server error" := by
        by_cases hauth : cfSecret event = cfg.SECRET_KEY
        · exact Or.inr (handler_authenticated_cases cfg world event hauth)
        · left; rw [handler_forbidden cfg world event hauth]
      rcases hall with h | h | h | h | h | h | h | h | h | h
      · exact ⟨(403, "Forbidden"), by simp, by rw [h]; rfl⟩
      · exact ⟨(400, "Missing image path"), by simp, by rw [h]; rfl⟩
      · exact ⟨(400, "Invalid width or height parameter"), by simp, by rw [h]; rfl⟩
      · exact ⟨(400, "Width and height must be between 1 and 4096"), by simp, by
          rw [h]; rfl⟩
      · exact absurd h h200
      · exact ⟨(413, "Image file too large"), by simp, by rw [h]; rfl⟩
      · exact ⟨(404, "Image not found"), by simp, by rw [h]; rfl⟩
      · exact ⟨(403, "Access denied"), by simp, by rw [h]; rfl⟩
      · exact ⟨(400, "Invalid image format"), by simp, by rw [h]; rfl⟩
      · exact ⟨(500, "Internal server error"), by simp, by rw [h]; rfl⟩
  · intro error effects h
    unfold handler
    rw [h]
    rfl

/-- C15: when validation, the fetch, the size guard, the body read, the decode and the
encode all succeed, the handler answers 200 with Content-Type "image/" followed by the
resolved output format, which makes it image/jpeg, image/png or image/webp, with
Cache-Control "public, max-age=86400", with isBase64Encoded true, and with the base64
text of the bytes the encoder produced as body.  The base64 function is checked on the
test vectors of RFC 4648 ("", "f", "fo", "foo", "foobar"). -/
theorem C15_success_response (cfg : Config) (world : World) (event : Event)
    (width height : Int) (s3Response : GetObjectOutput) (imageBuffer : Bytes)
    (metadata : Metadata) (outputBuffer : Bytes)
    (hauth : cfSecret event = cfg.SECRET_KEY) (hpath : objectPath event ≠ "")
    (hw : parsedWidth event = some width) (hh : parsedHeight event = some height)
    (hrange : 1 ≤ width ∧ width ≤ 4096 ∧ 1 ≤ height ∧ height ≤ 4096)
    (hs : world.send { Bucket := cfg.BUCKET_NAME, Key := objectPath event } =
      .ok s3Response)
    (hlen : s3Response.ContentLength.getD 0 ≤ 20 * 1024 * 1024)
    (hb : streamToBuffer s3Response.Body = .ok imageBuffer)
    (hm : world.metadata imageBuffer = .ok metadata)
    (ht : world.toBuffer imageBuffer
      (sharpOps width height
        (resolveOutputFormat (getProp (queryParams event) "format") metadata.format)
        metadata.hasAlpha) = .ok outputBuffer) :
    (handler cfg world event).1 =
      { statusCode := 200,
        headers := some
          [("Content-Type", "image/" ++
              resolveOutputFormat (getProp (queryParams event) "format") metadata.format),
           ("Cache-Control", "public, max-age=86400")],
        body := toBase64 outputBuffer,
        isBase64Encoded := some true } ∧
    ("image/" ++ resolveOutputFormat (getProp (queryParams event) "format")
        metadata.format) ∈ ["image/jpeg", "image/png", "image/webp"] ∧
    toBase64 [] = "" ∧ toBase64 [102] = "Zg==" ∧ toBase64 [102, 111] = "Zm8=" ∧
    toBase64 [102, 111, 111] = "Zm9v" ∧
    toBase64 [102, 111, 111, 98, 97, 114] = "Zm9vYmFy" := by
  have hnot : ¬ (width ≤ 0 ∨ height ≤ 0 ∨ width > MAX_DIMENSION ∨
      height > MAX_DIMENSION) := by
    simp only [MAX_DIMENSION]; omega
  have hguard : ¬ s3Response.ContentLength.getD 0 > MAX_FILE_SIZE := by
    simp only [MAX_FILE_SIZE]; omega
  refine ⟨?_, ?_, by decide, by decide, by decide, by decide, by decide⟩
  · rw [handler_validated cfg world event width height hauth hpath hw hh hnot,
      fetch_success cfg world event (objectPath event) width height s3Response
        imageBuffer metadata outputBuffer hs hguard hb hm ht]
    rfl
  · have hmem := resolveOutputFormat_mem (getProp (queryParams event) "format")
      metadata.format
    simp only [List.mem_cons, List.mem_singleton, List.not_mem_nil, or_false] at hmem
    rcases hmem with h | h | h <;> rw [h] <;> decide

/-- C15 on Scenario B: `format=webp` on a JPEG source. -/
theorem C15_success_response_witness :
    (handler sampleConfig
        (servingWorld { ContentLength := some 3, Body := .chunk [1, 2, 3] .done }
          { format := some "jpeg", hasAlpha := false } [102, 111, 111])
        (sampleEvent (some "/a.jpg") (some [("format", "webp")]))).1 =
      { statusCode := 200,
        headers := some [("Content-Type", "image/webp"),
                         ("Cache-Control", "public, max-age=86400")],
        body := "Zm9v", isBase64Encoded := some true } := by
  have h := (C15_success_response sampleConfig
    (servingWorld { ContentLength := some 3, Body := .chunk [1, 2, 3] .done }
      { format := some "jpeg", hasAlpha := false } [102, 111, 111])
    (sampleEvent (some "/a.jpg") (some [("format", "webp")])) 200 200
    { ContentLength := some 3, Body := .chunk [1, 2, 3] .done } [1, 2, 3]
    { format := some "jpeg", hasAlpha := false } [102, 111, 111]
    (by decide) (by decide) (by decide) (by decide)
    ⟨by decide, by decide, by decide, by decide⟩ rfl (by decide) rfl rfl rfl).1
  rw [h]
  decide

/-- C16: format resolution is idempotent.  Resolving a candidate and resolving the
result again gives the same format, and a resolved format fed back as the explicit
`format` parameter is returned unchanged, whatever the source format then is. -/
theorem C16_resolution_idempotent (candidate : String)
    (format detected other : Option String) :
    resolveOutputFormat none (some (resolveOutputFormat none (some candidate))) =
      resolveOutputFormat none (some candidate) ∧
    resolveOutputFormat (some (resolveOutputFormat format detected)) other =
      resolveOutputFormat format detected ∧
    resolveOutputFormat none (some (resolveOutputFormat format detected)) =
      resolveOutputFormat format detected := by
  have hfix : ∀ r ∈ ["jpeg", "png", "webp"], ∀ d : Option String,
      resolveOutputFormat (some r) d = r ∧ resolveOutputFormat none (some r) = r := by
    intro r hr d
    simp only [List.mem_cons, List.mem_singleton, List.not_mem_nil, or_false] at hr
    have hnone : resolveOutputFormat none (some r) = r := by
      rcases hr with h | h | h <;> subst h <;> decide
    refine ⟨?_, hnone⟩
    have hne : r ≠ "" := by
      rcases hr with h | h | h <;> subst h <;> decide
    rw [resolveOutputFormat_closed, candidate_of_present r d hne]
    rcases hr with h | h | h <;> subst h <;> decide
  exact ⟨(hfix _ (resolveOutputFormat_mem _ _) none).2,
    (hfix _ (resolveOutputFormat_mem _ _) other).1,
    (hfix _ (resolveOutputFormat_mem _ _) none).2⟩

/-! ## The transform pipeline -/

/-- Lines 87-104 for a resolved format: the resize, then the flatten when the output is
JPEG and the source has an alpha channel, then the one encoder of that format. -/
theorem sharpOps_form (width height : Int) (outputFormat : String) (hasAlpha : Bool)
    (hmem : outputFormat ∈ ["jpeg", "png", "webp"]) :
    sharpOps width height outputFormat hasAlpha =
      [SharpOp.resize width height "inside" false] ++
      (if outputFormat = "jpeg" ∧ hasAlpha = true then [SharpOp.flatten "#ffffff"]
        else []) ++
      [if outputFormat = "png" then SharpOp.png 85 8
        else if outputFormat = "webp" then SharpOp.webp 85
        else SharpOp.jpeg 85 true] := by
  simp only [List.mem_cons, List.mem_singleton, List.not_mem_nil, or_false] at hmem
  rcases hmem with h | h | h <;> subst h <;> cases hasAlpha <;> rfl

/-- Which encoder the pipeline of a resolved format holds. -/
theorem sharpOps_encoder (width height : Int) (outputFormat : String) (hasAlpha : Bool)
    (hmem : outputFormat ∈ ["jpeg", "png", "webp"]) :
    (SharpOp.png 85 8 ∈ sharpOps width height outputFormat hasAlpha ↔
      outputFormat = "png") ∧
    (SharpOp.webp 85 ∈ sharpOps width height outputFormat hasAlpha ↔
      outputFormat = "webp") ∧
    (SharpOp.jpeg 85 true ∈ sharpOps width height outputFormat hasAlpha ↔
      outputFormat = "jpeg") ∧
    (∀ op ∈ sharpOps width height outputFormat hasAlpha,
      (∀ q c, op = SharpOp.png q c → q = 85 ∧ c = 8) ∧
      (∀ q, op = SharpOp.webp q → q = 85) ∧
      (∀ q p, op = SharpOp.jpeg q p → q = 85 ∧ p = true)) := by
  simp only [List.mem_cons, List.mem_singleton, List.not_mem_nil, or_false] at hmem
  rcases hmem with h | h | h <;> subst h <;> cases hasAlpha <;>
    simp [sharpOps]

/-- When the pipeline of a resolved format flattens, and onto what. -/
theorem sharpOps_flatten (width height : Int) (outputFormat : String) (hasAlpha : Bool)
    (hmem : outputFormat ∈ ["jpeg", "png", "webp"]) :
    (SharpOp.flatten "#ffffff" ∈ sharpOps width height outputFormat hasAlpha ↔
      outputFormat = "jpeg" ∧ hasAlpha = true) ∧
    (∀ background, SharpOp.flatten background ∈
        sharpOps width height outputFormat hasAlpha →
      background = "#ffffff" ∧
      sharpOps width height outputFormat hasAlpha =
        [SharpOp.resize width height "inside" false, SharpOp.flatten "#ffffff",
          SharpOp.jpeg 85 true]) ∧
    (outputFormat = "png" ∨ outputFormat = "webp" →
      ∀ background, SharpOp.flatten background ∉
        sharpOps width height outputFormat hasAlpha) := by
  simp only [List.mem_cons, List.mem_singleton, List.not_mem_nil, or_false] at hmem
  rcases hmem with h | h | h <;> subst h <;> cases hasAlpha <;>
    simp [sharpOps]

/-- C17: for every request answered 200, the handler ran exactly one transform, on the
buffer it decoded: the resize to the validated width and height with fit "inside" and
enlargement allowed, then the flatten when it applies, then exactly one encoder, the one
of the format announced in Content-Type: png with quality 85 and compression level 8
exactly when the format is "png", webp with quality 85 exactly when it is "webp", and
progressive jpeg with quality 85 exactly when it is "jpeg". -/
theorem C17_encoder_agrees_with_content_type (cfg : Config) (world : World)
    (event : Event) (h200 : (handler cfg world event).1.statusCode = 200) :
    ∃ (width height : Int) (imageBuffer : Bytes) (hasAlpha : Bool)
      (outputFormat : String) (outputBuffer : Bytes) (ops : List SharpOp),
      parsedWidth event = some width ∧ parsedHeight event = some height ∧
      1 ≤ width ∧ width ≤ 4096 ∧ 1 ≤ height ∧ height ≤ 4096 ∧
      outputFormat ∈ ["jpeg", "png", "webp"] ∧
      (handler cfg world event).1.headers =
        some [("Content-Type", "image/" ++ outputFormat),
              ("Cache-Control", "public, max-age=86400")] ∧
      (handler cfg world event).1.body = toBase64 outputBuffer ∧
      world.toBuffer imageBuffer ops = .ok outputBuffer ∧
      (handler cfg world event).2 =
        [Effect.send { Bucket := cfg.BUCKET_NAME, Key := objectPath event },
          Effect.readBody, Effect.decode imageBuffer, Effect.encode imageBuffer ops] ∧
      ops = [SharpOp.resize width height "inside" false] ++
        (if outputFormat = "jpeg" ∧ hasAlpha = true then [SharpOp.flatten "#ffffff"]
          else []) ++
        [if outputFormat = "png" then SharpOp.png 85 8
          else if outputFormat = "webp" then SharpOp.webp 85
          else SharpOp.jpeg 85 true] ∧
      (SharpOp.png 85 8 ∈ ops ↔ outputFormat = "png") ∧
      (SharpOp.webp 85 ∈ ops ↔ outputFormat = "webp") ∧
      (SharpOp.jpeg 85 true ∈ ops ↔ outputFormat = "jpeg") ∧
      (∀ op ∈ ops,
        (∀ q c, op = SharpOp.png q c → q = 85 ∧ c = 8) ∧
        (∀ q, op = SharpOp.webp q → q = 85) ∧
        (∀ q p, op = SharpOp.jpeg q p → q = 85 ∧ p = true)) := by
  obtain ⟨_, _, width, height, hw, hh, h1, h2, h3, h4, s3Response, imageBuffer, metadata,
      outputBuffer, _, _, _, _, ht, h⟩ := handler_success_inv cfg world event h200
  have hmem := resolveOutputFormat_mem (getProp (queryParams event) "format")
    metadata.format
  have henc := sharpOps_encoder width height _ metadata.hasAlpha hmem
  refine ⟨width, height, imageBuffer, metadata.hasAlpha, _, outputBuffer, _, hw, hh,
    h1, h2, h3, h4, hmem, ?_, ?_, ht, ?_, sharpOps_form width height _ _ hmem,
    henc.1, henc.2.1, henc.2.2.1, henc.2.2.2⟩
  · rw [h]; rfl
  · rw [h]; rfl
  · rw [h]

/-- C17 on Scenario A: a 100 by 100 thumbnail of an opaque PNG, no `format`. -/
theorem C17_encoder_agrees_with_content_type_witness :
    (handler sampleConfig
        (servingWorld { ContentLength := some 3, Body := .chunk [1, 2, 3] .done }
          { format := some "png", hasAlpha := false } [9, 9, 9])
        (sampleEvent (some "cats/a.png")
          (some [("width", "100"), ("height", "100")]))).1.statusCode = 200 ∧
    ∃ (width height : Int) (outputFormat : String) (ops : List SharpOp),
      parsedWidth (sampleEvent (some "cats/a.png")
        (some [("width", "100"), ("height", "100")])) = some width ∧
      parsedHeight (sampleEvent (some "cats/a.png")
        (some [("width", "100"), ("height", "100")])) = some height ∧
      (handler sampleConfig
        (servingWorld { ContentLength := some 3, Body := .chunk [1, 2, 3] .done }
          { format := some "png", hasAlpha := false } [9, 9, 9])
        (sampleEvent (some "cats/a.png")
          (some [("width", "100"), ("height", "100")]))).1.headers =
        some [("Content-Type", "image/" ++ outputFormat),
              ("Cache-Control", "public, max-age=86400")] ∧
      (SharpOp.png 85 8 ∈ ops ↔ outputFormat = "png") := by
  refine ⟨by decide, ?_⟩
  obtain ⟨width, height, _, _, outputFormat, _, ops, hw, hh, _, _, _, _, _, hhead, _, _,
      _, _, hpng, _⟩ :=
    C17_encoder_agrees_with_content_type sampleConfig
      (servingWorld { ContentLength := some 3, Body := .chunk [1, 2, 3] .done }
        { format := some "png", hasAlpha := false } [9, 9, 9])
      (sampleEvent (some "cats/a.png") (some [("width", "100"), ("height", "100")]))
      (by decide)
  exact ⟨width, height, outputFormat, ops, hw, hh, hhead, hpng⟩

/-- C18: in every transform the handler runs, the flatten onto the white background
"#ffffff" is present exactly when the resolved output format is "jpeg" and the decoded
metadata of the source reports an alpha channel; it is absent for png and webp output,
no other background is ever used, and when present it stands between the resize and the
jpeg encoder. -/
theorem C18_flatten_iff_jpeg_with_alpha (cfg : Config) (world : World) (event : Event)
    (imageBuffer : Bytes) (ops : List SharpOp)
    (hmem : Effect.encode imageBuffer ops ∈ (handler cfg world event).2) :
    ∃ (metadata : Metadata) (width height : Int),
      world.metadata imageBuffer = .ok metadata ∧
      parsedWidth event = some width ∧ parsedHeight event = some height ∧
      ops = sharpOps width height
        (resolveOutputFormat (getProp (queryParams event) "format") metadata.format)
        metadata.hasAlpha ∧
      (SharpOp.flatten "#ffffff" ∈ ops ↔
        resolveOutputFormat (getProp (queryParams event) "format") metadata.format =
          "jpeg" ∧ metadata.hasAlpha = true) ∧
      (∀ background, SharpOp.flatten background ∈ ops →
        background = "#ffffff" ∧
        ops = [SharpOp.resize width height "inside" false, SharpOp.flatten "#ffffff",
          SharpOp.jpeg 85 true]) ∧
      (resolveOutputFormat (getProp (queryParams event) "format") metadata.format =
          "png" ∨
        resolveOutputFormat (getProp (queryParams event) "format") metadata.format =
          "webp" →
        ∀ background, SharpOp.flatten background ∉ ops) := by
  rcases handler_inv cfg world event with
    ⟨_, h⟩ | ⟨_, _, h⟩ | ⟨_, _, _, h⟩ | ⟨_, _, _, _, _, _, _, h⟩ |
    ⟨_, _, width, height, hw, hh, _, h⟩
  · rw [h] at hmem; simp at hmem
  · rw [h] at hmem; simp at hmem
  · rw [h] at hmem; simp at hmem
  · rw [h] at hmem; simp at hmem
  · rw [h] at hmem
    rcases (settle_fetchAndTransform_effects cfg world event (objectPath event)
        width height).2 _ hmem with
      he | he | ⟨_, he⟩ | ⟨_, buffer, _, _, _, he | ⟨metadata, hm, he⟩⟩
    · cases he
    · cases he
    · cases he
    · cases he
    · cases he
      have hfmt := resolveOutputFormat_mem (getProp (queryParams event) "format")
        metadata.format
      have hfl := sharpOps_flatten width height _ metadata.hasAlpha hfmt
      exact ⟨metadata, width, height, hm, hw, hh, rfl, hfl.1, hfl.2.1, hfl.2.2⟩

/-- C18 on Scenario F: a PNG source with an alpha channel and `format=jpeg`. -/
theorem C18_flatten_iff_jpeg_with_alpha_witness :
    Effect.encode [1, 2, 3]
        [SharpOp.resize 200 200 "inside" false, SharpOp.flatten "#ffffff",
          SharpOp.jpeg 85 true] ∈
      (handler sampleConfig
        (servingWorld { ContentLength := some 3, Body := .chunk [1, 2, 3] .done }
          { format := some "png", hasAlpha := true } [9, 9, 9])
        (sampleEvent (some "/a.png") (some [("format", "jpeg")]))).2 ∧
    (handler sampleConfig
        (servingWorld { ContentLength := some 3, Body := .chunk [1, 2, 3] .done }
          { format := some "png", hasAlpha := true } [9, 9, 9])
        (sampleEvent (some "/a.png") (some [("format", "jpeg")]))).1.statusCode = 200 ∧
    ∃ (metadata : Metadata),
      (servingWorld { ContentLength := some 3, Body := .chunk [1, 2, 3] .done }
        { format := some "png", hasAlpha := true } [9, 9, 9]).metadata [1, 2, 3] =
        .ok metadata ∧
      (SharpOp.flatten "#ffffff" ∈
          [SharpOp.resize 200 200 "inside" false, SharpOp.flatten "#ffffff",
            SharpOp.jpeg 85 true] ↔
        resolveOutputFormat
          (getProp (queryParams (sampleEvent (some "/a.png") (some [("format", "jpeg")])))
            "format") metadata.format = "jpeg" ∧ metadata.hasAlpha = true) := by
  refine ⟨by decide, by decide, ?_⟩
  obtain ⟨metadata, _, _, hm, _, _, _, hiff, _⟩ :=
    C18_flatten_iff_jpeg_with_alpha sampleConfig
      (servingWorld { ContentLength := some 3, Body := .chunk [1, 2, 3] .done }
        { format := some "png", hasAlpha := true } [9, 9, 9])
      (sampleEvent (some "/a.png") (some [("format", "jpeg")])) [1, 2, 3]
      [SharpOp.resize 200 200 "inside" false, SharpOp.flatten "#ffffff",
        SharpOp.jpeg 85 true] (by decide)
  exact ⟨metadata, hm, hiff⟩

/-! ## The `catch` block and the order of the checks -/

/-- The test of line 136 holds exactly when the error has a message that contains
"Input buffer". -/
theorem message_test_iff (error : JsError) :
    (match error.message with
      | some message => message != "" && includes message "Input buffer"
      | none => false) = true ↔
    ∃ message, error.message = some message ∧ "Input buffer".data <:+: message.data := by
  cases hm : error.message with
  | none => simp
  | some message =>
    simp only [Bool.and_eq_true, bne_iff_ne, ne_eq, Option.some.injEq, exists_eq_left']
    rw [includes_iff_contiguous]
    constructor
    · intro h; exact h.2
    · intro h
      refine ⟨?_, h⟩
      intro he
      subst he
      rw [← includes_iff_contiguous] at h
      exact absurd h (by decide)

/-- C19: the `catch` block classifies a thrown error by the first test that matches:
name "NoSuchKey" or HTTP status 404 gives 404 "Image not found"; otherwise name
"AccessDenied" or HTTP status 403 gives 403 "Access denied"; otherwise a message that
contains "Input buffer" gives 400 "Invalid image format"; otherwise the answer is
500 "Internal server error".  A validated request whose fetch, body read, decode or
encode throws is answered with that classification of the thrown error, after the error
was logged.  An error named "NoSuchKey" with status 403 gets 404, and an error with
status 403 and an "Input buffer" message gets 403. -/
theorem C19_first_match_classification (cfg : Config) (world : World) (event : Event)
    (error : JsError) :
    ((error.name = some "NoSuchKey" ∨ error.httpStatusCode = some 404) →
      handlerCatch error =
        { statusCode := 404, headers := none,
          body := "\x7b\"error\":\"Image not found\"\x7d", isBase64Encoded := none }) ∧
    (¬ (error.name = some "NoSuchKey" ∨ error.httpStatusCode = some 404) →
      (error.name = some "AccessDenied" ∨ error.httpStatusCode = some 403) →
      handlerCatch error =
        { statusCode := 403, headers := none,
          body := "\x7b\"error\":\"Access denied\"\x7d", isBase64Encoded := none }) ∧
    (¬ (error.name = some "NoSuchKey" ∨ error.httpStatusCode = some 404) →
      ¬ (error.name = some "AccessDenied" ∨ error.httpStatusCode = some 403) →
      (∃ message, error.message = some message ∧
        "Input buffer".data <:+: message.data) →
      handlerCatch error =
        { statusCode := 400, headers := none,
          body := "\x7b\"error\":\"Invalid image format\"\x7d",
          isBase64Encoded := none }) ∧
    (¬ (error.name = some "NoSuchKey" ∨ error.httpStatusCode = some 404) →
      ¬ (error.name = some "AccessDenied" ∨ error.httpStatusCode = some 403) →
      ¬ (∃ message, error.message = some message ∧
        "Input buffer".data <:+: message.data) →
      handlerCatch error =
        { statusCode := 500, headers := none,
          body := "\x7b\"error\":\"Internal server error\"\x7d",
          isBase64Encoded := none }) ∧
    (∀ width height : Int, cfSecret event = cfg.SECRET_KEY → objectPath event ≠ "" →
      parsedWidth event = some width → parsedHeight event = some height →
      1 ≤ width ∧ width ≤ 4096 ∧ 1 ≤ height ∧ height ≤ 4096 →
      (world.send { Bucket := cfg.BUCKET_NAME, Key := objectPath event } = .error error →
        handler cfg world event =
          (handlerCatch error,
            [Effect.send { Bucket := cfg.BUCKET_NAME, Key := objectPath event },
              Effect.consoleError error])) ∧
      (∀ s3Response,
        world.send { Bucket := cfg.BUCKET_NAME, Key := objectPath event } =
          .ok s3Response →
        s3Response.ContentLength.getD 0 ≤ 20 * 1024 * 1024 →
        (streamToBuffer s3Response.Body = .error error →
          handler cfg world event =
            (handlerCatch error,
              [Effect.send { Bucket := cfg.BUCKET_NAME, Key := objectPath event },
                Effect.readBody, Effect.consoleError error])) ∧
        (∀ imageBuffer, streamToBuffer s3Response.Body = .ok imageBuffer →
          (world.metadata imageBuffer = .error error →
            handler cfg world event =
              (handlerCatch error,
                [Effect.send { Bucket := cfg.BUCKET_NAME, Key := objectPath event },
                  Effect.readBody, Effect.decode imageBuffer,
                  Effect.consoleError error])) ∧
          (∀ metadata, world.metadata imageBuffer = .ok metadata →
            world.toBuffer imageBuffer
              (sharpOps width height
                (resolveOutputFormat (getProp (queryParams event) "format")
                  metadata.format)
                metadata.hasAlpha) = .error error →
            handler cfg world event =
              (handlerCatch error,
                [Effect.send { Bucket := cfg.BUCKET_NAME, Key := objectPath event },
                  Effect.readBody, Effect.decode imageBuffer,
                  Effect.encode imageBuffer
                    (sharpOps width height
                      (resolveOutputFormat (getProp (queryParams event) "format")
                        metadata.format)
                      metadata.hasAlpha),
                  Effect.consoleError error]))))) ∧
    handlerCatch { name := some "NoSuchKey", httpStatusCode := some 403, message := none } =
      { statusCode := 404, headers := none,
        body := "\x7b\"error\":\"Image not found\"\x7d", isBase64Encoded := none } ∧
    handlerCatch { name := some "Error", httpStatusCode := some 403,
                   message := some "Input buffer is empty" } =
      { statusCode := 403, headers := none,
        body := "\x7b\"error\":\"Access denied\"\x7d", isBase64Encoded := none } := by
  refine ⟨?_, ?_, ?_, ?_, ?_, by decide, by decide⟩
  · intro hnf
    unfold handlerCatch
    rw [if_pos hnf]; rfl
  · intro hnf had
    unfold handlerCatch
    rw [if_neg hnf, if_pos had]; rfl
  · intro hnf had hmsg
    unfold handlerCatch
    rw [if_neg hnf, if_neg had, if_pos ((message_test_iff error).2 hmsg)]; rfl
  · intro hnf had hmsg
    unfold handlerCatch
    rw [if_neg hnf, if_neg had, if_neg (fun h => hmsg ((message_test_iff error).1 h))]; rfl
  · intro width height hauth hpath hw hh hrange
    have hnot : ¬ (width ≤ 0 ∨ height ≤ 0 ∨ width > MAX_DIMENSION ∨
        height > MAX_DIMENSION) := by
      simp only [MAX_DIMENSION]; omega
    have hv := handler_validated cfg world event width height hauth hpath hw hh hnot
    refine ⟨?_, ?_⟩
    · intro hs
      rw [hv, fetch_send_error cfg world event _ width height error hs]; rfl
    · intro s3Response hs hlen
      have hguard : ¬ s3Response.ContentLength.getD 0 > MAX_FILE_SIZE := by
        simp only [MAX_FILE_SIZE]; omega
      refine ⟨?_, ?_⟩
      · intro hb
        rw [hv, fetch_body_error cfg world event _ width height s3Response error
          hs hguard hb]; rfl
      · intro imageBuffer hb
        refine ⟨?_, ?_⟩
        · intro hm
          rw [hv, fetch_decode_error cfg world event _ width height s3Response
            imageBuffer error hs hguard hb hm]; rfl
        · intro metadata hm ht
          rw [hv, fetch_encode_error cfg world event _ width height s3Response
            imageBuffer metadata error hs hguard hb hm ht]; rfl

/-- C19 at a decode that throws "Input buffer contains unsupported image format": the
request is answered 400 "Invalid image format". -/
theorem C19_first_match_classification_witness :
    handler sampleConfig
        { send := fun _ => .ok { ContentLength := some 3, Body := .chunk [1, 2, 3] .done },
          metadata := emptyBucket.metadata, toBuffer := emptyBucket.toBuffer }
        (sampleEvent (some "/a.png") none) =
      ({ statusCode := 400, headers := none,
         body := "\x7b\"error\":\"Invalid image format\"\x7d",
         isBase64Encoded := none },
       [Effect.send { Bucket := some "images", Key := "a.png" }, Effect.readBody,
        Effect.decode [1, 2, 3],
        Effect.consoleError
          { name := some "Error", httpStatusCode := none,
            message := some "Input buffer contains unsupported image format" }]) := by
  have h := C19_first_match_classification sampleConfig
    { send := fun _ => .ok { ContentLength := some 3, Body := .chunk [1, 2, 3] .done },
      metadata := emptyBucket.metadata, toBuffer := emptyBucket.toBuffer }
    (sampleEvent (some "/a.png") none)
    { name := some "Error", httpStatusCode := none,
      message := some "Input buffer contains unsupported image format" }
  have hstep := ((((h.2.2.2.2.1 200 200 (by decide) (by decide) (by decide) (by decide)
    ⟨by decide, by decide, by decide, by decide⟩).2
    { ContentLength := some 3, Body := .chunk [1, 2, 3] .done } rfl (by decide)).2
    [1, 2, 3] rfl).1 rfl)
  have hclass := h.2.2.1 (by decide) (by decide)
    ⟨"Input buffer contains unsupported image format", rfl, by
      rw [← includes_iff_contiguous]; decide⟩
  rw [hstep, hclass]
  decide

/-- C20: a request answered 403 "Forbidden", 400 "Missing image path",
400 "Invalid width or height parameter" or 400 "Width and height must be between 1 and
4096" made no call at all: no fetch, no body read, no decode, no encode.  The checks run
in the order authentication, path, numeric parse, range, and the first one that fails
decides the answer, whatever the later ones would say. -/
theorem C20_rejected_request_calls_nothing (cfg : Config) (world : World)
    (event : Event) :
    ((((handler cfg world event).1.statusCode = 403 ∧
          (handler cfg world event).1.body = "\x7b\"error\":\"Forbidden\"\x7d") ∨
        ((handler cfg world event).1.statusCode = 400 ∧
          ((handler cfg world event).1.body =
              "\x7b\"error\":\"Missing image path\"\x7d" ∨
            (handler cfg world event).1.body =
              "\x7b\"error\":\"Invalid width or height parameter\"\x7d" ∨
            (handler cfg world event).1.body =
              "\x7b\"error\":\"Width and height must be between 1 and 4096\"\x7d"))) →
      (handler cfg world event).2 = []) ∧
    (cfSecret event ≠ cfg.SECRET_KEY →
      handler cfg world event =
        ({ statusCode := 403, headers := none,
           body := "\x7b\"error\":\"Forbidden\"\x7d", isBase64Encoded := none }, [])) ∧
    (cfSecret event = cfg.SECRET_KEY → objectPath event = "" →
      handler cfg world event =
        ({ statusCode := 400, headers := none,
           body := "\x7b\"error\":\"Missing image path\"\x7d",
           isBase64Encoded := none }, [])) ∧
    (cfSecret event = cfg.SECRET_KEY → objectPath event ≠ "" →
      (parsedWidth event = none ∨ parsedHeight event = none) →
      handler cfg world event =
        ({ statusCode := 400, headers := none,
           body := "\x7b\"error\":\"Invalid width or height parameter\"\x7d",
           isBase64Encoded := none }, [])) ∧
    (cfSecret event = cfg.SECRET_KEY → objectPath event ≠ "" →
      ∀ width height : Int,
        parsedWidth event = some width → parsedHeight event = some height →
        (width ≤ 0 ∨ height ≤ 0 ∨ width > 4096 ∨ height > 4096) →
        handler cfg world event =
          ({ statusCode := 400, headers := none,
             body := "\x7b\"error\":\"Width and height must be between 1 and 4096\"\x7d",
             isBase64Encoded := none }, [])) := by
  refine ⟨?_, ?_, ?_, ?_, ?_⟩
  · intro hresp
    rcases handler_inv cfg world event with
      ⟨_, h⟩ | ⟨_, _, h⟩ | ⟨_, _, _, h⟩ | ⟨_, _, _, _, _, _, _, h⟩ |
      ⟨_, _, width, height, _, _, _, h⟩
    · rw [h]
    · rw [h]
    · rw [h]
    · rw [h]
    · exfalso
      rw [h] at hresp
      rcases settle_fetchAndTransform_cases cfg world event (objectPath event) width height
        with hc | hc | hc | hc | hc | hc
      · rw [hc] at hresp
        rcases hresp with ⟨h1, _⟩ | ⟨h1, _⟩ <;> exact absurd h1 (by decide)
      all_goals
        rw [hc] at hresp
        revert hresp
        decide
  · intro hauth
    rw [handler_forbidden cfg world event hauth]; rfl
  · intro hauth hpath
    rw [handler_missing_path cfg world event hauth hpath]; rfl
  · intro hauth hpath hnan
    rw [handler_invalid_dimension cfg world event hauth hpath hnan]; rfl
  · intro hauth hpath width height hw hh hrange
    rw [handler_out_of_range cfg world event width height hauth hpath hw hh
      (by simpa [MAX_DIMENSION] using hrange)]
    rfl

/-- C20 at a request that fails every check: no header, an empty path, width "abc" and
height "0".  It is answered 403 "Forbidden" and nothing is called. -/
theorem C20_rejected_request_calls_nothing_witness :
    cfSecret { headers := none, path := some "/",
               queryStringParameters := some [("width", "abc"), ("height", "0")] } ≠
      sampleConfig.SECRET_KEY ∧
    objectPath { headers := none, path := some "/",
                 queryStringParameters := some [("width", "abc"), ("height", "0")] } =
      "" ∧
    handler sampleConfig
        (servingWorld { ContentLength := some 3, Body := .chunk [1, 2, 3] .done }
          { format := some "png", hasAlpha := false } [9, 9, 9])
        { headers := none, path := some "/",
          queryStringParameters := some [("width", "abc"), ("height", "0")] } =
      ({ statusCode := 403, headers := none,
         body := "\x7b\"error\":\"Forbidden\"\x7d", isBase64Encoded := none }, []) :=
  ⟨by decide, by decide,
    (C20_rejected_request_calls_nothing sampleConfig
      (servingWorld { ContentLength := some 3, Body := .chunk [1, 2, 3] .done }
        { format := some "png", hasAlpha := false } [9, 9, 9])
      { headers := none, path := some "/",
        queryStringParameters := some [("width", "abc"), ("height", "0")] }).2.1
      (by decide)⟩

/-! ## Collaborators that may throw any value -/

/-- The loop collects from a lifted stream what it collects from the stream. -/
theorem rawCollectChunks_lift (stream : BodyStream) (chunks : List Bytes) :
    rawCollectChunks (liftStream stream) chunks =
      liftResult id (collectChunks stream chunks) := by
  induction stream generalizing chunks with
  | done => rfl
  | fail error => rfl
  | chunk bytes rest ih =>
    simp only [liftStream, rawCollectChunks, collectChunks]
    exact ih _

/-- Buffering a lifted stream gives what buffering the stream gives. -/
theorem rawStreamToBuffer_lift (stream : BodyStream) :
    rawStreamToBuffer (liftStream stream) = liftResult id (streamToBuffer stream) := by
  unfold rawStreamToBuffer streamToBuffer
  rw [rawCollectChunks_lift]
  cases collectChunks stream [] <;> rfl

/-- Lines 52-116 on lifted collaborators return or throw what they do on the
collaborators themselves. -/
theorem rawFetchAndTransform_lift (cfg : Config) (world : World) (event : Event)
    (path : String) (width height : Int) :
    rawFetchAndTransform cfg (liftWorld world) event path width height =
      liftResult id (fetchAndTransform cfg world event path width height).1 := by
  rcases fetchAndTransform_inv cfg world event path width height with
    ⟨error, hs, h⟩ | ⟨s3Response, hs, hlen, h⟩ | ⟨s3Response, error, hs, hlen, hb, h⟩ |
    ⟨s3Response, imageBuffer, error, hs, hlen, hb, hm, h⟩ |
    ⟨s3Response, imageBuffer, metadata, error, hs, hlen, hb, hm, ht, h⟩ |
    ⟨s3Response, imageBuffer, metadata, outputBuffer, hs, hlen, hb, hm, ht, h⟩
  · rw [h]
    simp [rawFetchAndTransform, liftWorld, liftResult, hs]
  · rw [h]
    simp [rawFetchAndTransform, liftWorld, liftResult, hs, hlen]
  · rw [h]
    simp [rawFetchAndTransform, liftWorld, liftResult, hs, hlen,
      rawStreamToBuffer_lift, hb]
  · rw [h]
    simp [rawFetchAndTransform, liftWorld, liftResult, hs, hlen,
      rawStreamToBuffer_lift, hb, hm]
  · rw [h]
    simp [rawFetchAndTransform, liftWorld, liftResult, hs, hlen,
      rawStreamToBuffer_lift, hb, hm, ht]
  · rw [h]
    simp [rawFetchAndTransform, liftWorld, liftResult, hs, hlen,
      rawStreamToBuffer_lift, hb, hm, ht]

/-- The `try` block on lifted collaborators returns or throws what it does on the
collaborators themselves. -/
theorem rawHandlerTry_lift (cfg : Config) (world : World) (event : Event) :
    rawHandlerTry cfg (liftWorld world) event =
      liftResult id (handlerTry cfg world event).1 := by
  unfold rawHandlerTry handlerTry
  by_cases hauth : cfSecret event = cfg.SECRET_KEY
  swap
  · simp [hauth, liftResult]
  by_cases hpath : objectPath event = ""
  · simp [hauth, hpath, liftResult]
  cases hw : parsedWidth event with
  | none => simp [hauth, hpath, liftResult]
  | some width =>
    cases hh : parsedHeight event with
    | none => simp [hauth, hpath, liftResult]
    | some height =>
      by_cases hrange :
          width ≤ 0 ∨ height ≤ 0 ∨ width > MAX_DIMENSION ∨ height > MAX_DIMENSION
      · simp only [hauth, hpath, ne_eq, not_true_eq_false, if_false, if_pos hrange]
        rfl
      · simp only [hauth, hpath, ne_eq, not_true_eq_false, if_false, if_neg hrange]
        exact rawFetchAndTransform_lift cfg world event _ width height

/-- On collaborators that throw error objects, the handler on any thrown value returns
the response of `handler`. -/
theorem rawHandler_lift (cfg : Config) (world : World) (event : Event) :
    rawHandler cfg (liftWorld world) event = .returned (handler cfg world event).1 := by
  unfold rawHandler handler
  rw [rawHandlerTry_lift]
  rcases handlerTry cfg world event with ⟨result, effects⟩
  cases result <;> rfl

/-- C14 as stated fails: when the fetch throws `null` or `undefined`, or an error whose
message is a truthy value without an `includes` method, the `catch` block itself throws
(lines 122 and 136), the error escapes and the handler returns no response. -/
theorem C14_thrown_null_escapes :
    rawHandlerTry sampleConfig (throwingBucket .nullish)
        (sampleEvent (some "/a.png") none) = .error .nullish ∧
    rawHandler sampleConfig (throwingBucket .nullish)
        (sampleEvent (some "/a.png") none) = .rejected ∧
    rawHandler sampleConfig (throwingBucket (.opaqueMessage (some "Error") none))
        (sampleEvent (some "/a.png") none) = .rejected := by
  refine ⟨rfl, ?_, ?_⟩ <;> decide

/-- C14, amended: for every request and every behaviour of collaborators that return or
throw error objects (values that are not `null` or `undefined`, with a message that is a
string or absent), the handler returns exactly one response and lets no error escape:
every error thrown inside the `try` block is caught, logged and answered.  The response
either has status 200, and is then the success response for one of the formats jpeg,
png, webp, or is one of nine fixed pairs of a status and a message, with the body
`{"error":"<message>"}` and nothing else, so no text of a thrown error reaches the body.
On collaborators that may throw any value, an error escapes exactly when the `try`
block throws `null` or `undefined`, or a value with an opaque message that is neither
not-found nor access-denied. -/
theorem C14_total_on_error_objects (cfg : Config) (world : World) (event : Event)
    (raw : RawWorld) :
    rawHandler cfg (liftWorld world) event = .returned (handler cfg world event).1 ∧
    (((handler cfg world event).1.statusCode = 200 ∧
        ∃ outputFormat ∈ ["jpeg", "png", "webp"], ∃ outputBuffer,
          (handler cfg world event).1 = successResponse outputFormat outputBuffer) ∨
      ∃ pair ∈ [((403 : Nat), "Forbidden"), (400, "Missing image path"),
          (400, "Invalid width or height parameter"),
          (400, "Width and height must be between 1 and 4096"),
          (413, "Image file too large"), (404, "Image not found"),
          (403, "Access denied"), (400, "Invalid image format"),
          (500, "Internal server error")],
        (handler cfg world event).1 =
          { statusCode := pair.1, headers := none,
            body := "\x7b\"error\":\"" ++ pair.2 ++ "\"\x7d",
            isBase64Encoded := none }) ∧
    (∀ error effects, handlerTry cfg world event = (.error error, effects) →
      handler cfg world event =
        (handlerCatch error, effects ++ [Effect.consoleError error])) ∧
    (rawHandler cfg raw event = .rejected ↔
      rawHandlerTry cfg raw event = .error .nullish ∨
      ∃ name httpStatusCode,
        rawHandlerTry cfg raw event = .error (.opaqueMessage name httpStatusCode) ∧
        ¬ (name = some "NoSuchKey" ∨ httpStatusCode = some 404) ∧
        ¬ (name = some "AccessDenied" ∨ httpStatusCode = some 403)) := by
  refine ⟨rawHandler_lift cfg world event, (handler_response_set cfg world event).1,
    (handler_response_set cfg world event).2, ?_⟩
  unfold rawHandler
  cases rawHandlerTry cfg raw event with
  | ok response => simp
  | error thrown =>
    cases thrown with
    | nullish => simp [rawHandlerCatch]
    | error error => simp [rawHandlerCatch]
    | opaqueMessage name httpStatusCode =>
      by_cases hnf : name = some "NoSuchKey" ∨ httpStatusCode = some 404
      · simp only [rawHandlerCatch, if_pos hnf]
        constructor
        · intro h; cases h
        · rintro (h | ⟨n, c, h, hn, _⟩)
          · cases h
          · cases h; exact absurd hnf hn
      · by_cases had : name = some "AccessDenied" ∨ httpStatusCode = some 403
        · simp only [rawHandlerCatch, if_neg hnf, if_pos had]
          constructor
          · intro h; cases h
          · rintro (h | ⟨n, c, h, _, ha⟩)
            · cases h
            · cases h; exact absurd had ha
        · simp only [rawHandlerCatch, if_neg hnf, if_neg had, true_iff]
          exact Or.inr ⟨name, httpStatusCode, rfl, hnf, had⟩

end GenerateThumbnail
